import Mathlib

/-!
Shallow embedding of `src/pkg/controller/revision/controller.go` (the Revision
reconciliation controller) and proofs about its reconcile/delete/status logic.

The Kubernetes API server and informer cache are external collaborators; they
are modelled as a concrete `Store` (association lists of existing child
objects, stored Revisions and cached Revisions) together with a
fault-injection schedule: every API call the controller makes consumes one
slot of the schedule, and a `some e` slot makes that call fail with error `e`
instead of its normal store semantics.  Every API call is also recorded in a
trace, so that theorems can speak about which operations were attempted and
in which order.
-/

namespace Elafros

/-- Kinds of Kubernetes objects the controller creates, gets or deletes as
children of a Revision.  `pod` is included because `reconcileDeployment`
creates a bare Pod in addition to the Deployment. -/
inductive Kind
  | deployment
  | autoscaler
  | configmap
  | service
  | pod
deriving DecidableEq, Repr

/-- Errors returned by the resource API.  `notFound` corresponds to
`apierrs.IsNotFound(err)`; every other error is "some other error" and the
`code` just distinguishes concrete instances. -/
inductive KErr
  | notFound
  | alreadyExists
  | other (code : Nat)
deriving DecidableEq, Repr

/-- One entry of `Revision.Status.Conditions`
(`v1alpha1.RevisionCondition`). -/
structure RevisionCondition where
  type : String
  status : String
  reason : String
deriving DecidableEq, Repr

/-- The status block of a Revision (`Conditions` and `ServiceName`). -/
structure RevisionStatus where
  conditions : List RevisionCondition
  serviceName : String
deriving DecidableEq, Repr

/-- A Revision object.  `ns`/`name` are its identity, `spec` stands for the
whole (opaque) spec payload, `deletionTimestamp` is the deletion marker and
`status` is the status block the controller writes. -/
structure Revision where
  ns : String
  name : String
  spec : Nat
  deletionTimestamp : Option Nat
  status : RevisionStatus
deriving DecidableEq, Repr

/-- The API calls the controller issues against the resource store or the
informer cache.  `createChild` records whether an owner reference back to the
Revision was attached; `deleteChild` records whether foreground-cascading
propagation was requested. -/
inductive ApiCall
  | getChild (k : Kind) (ns name : String)
  | createChild (k : Kind) (ns name : String) (ownerRef : Bool)
  | deleteChild (k : Kind) (ns name : String) (foreground : Bool)
  | getRevision (ns name : String)
  | updateRevision (ns : String) (r : Revision)
  | getCachedRevision (ns name : String)
  | getOrCreateNamespace (ns : String)
deriving DecidableEq, Repr

/-- Result of an API call. -/
inductive ApiResult
  | ok
  | okRev (r : Revision)
  | error (e : KErr)
deriving DecidableEq, Repr

/-- Lookup of a Revision by identity key in an association list. -/
def lookupRev : List ((String × String) × Revision) → String × String → Option Revision
  | [], _ => none
  | (k, r) :: rest, key => if k = key then some r else lookupRev rest key

/-- Replace the Revision stored under `key` (no-op when absent). -/
def setRev : List ((String × String) × Revision) → String × String → Revision →
    List ((String × String) × Revision)
  | [], _, _ => []
  | (k, r) :: rest, key, r2 =>
      if k = key then (k, r2) :: rest else (k, r) :: setRev rest key r2

/-- Remove a child object from the list of existing children. -/
def removeChild : List (Kind × String × String) → (Kind × String × String) →
    List (Kind × String × String)
  | [], _ => []
  | c :: rest, x => if c = x then removeChild rest x else c :: removeChild rest x

/-- The external resource store: which child objects exist (kind, namespace,
name), the stored Revisions, and the informer cache of Revisions. -/
structure Store where
  children : List (Kind × String × String)
  revisions : List ((String × String) × Revision)
  cache : List ((String × String) × Revision)
deriving DecidableEq, Repr

/-- Normal (non-faulted) semantics of one API call against the store. -/
def Store.apply : Store → ApiCall → ApiResult × Store
  | s, .getChild k ns n =>
      if (k, ns, n) ∈ s.children then (.ok, s) else (.error .notFound, s)
  | s, .createChild k ns n _ =>
      if (k, ns, n) ∈ s.children then (.error .alreadyExists, s)
      else (.ok, { s with children := s.children ++ [(k, ns, n)] })
  | s, .deleteChild k ns n _ =>
      if (k, ns, n) ∈ s.children then
        (.ok, { s with children := removeChild s.children (k, ns, n) })
      else (.error .notFound, s)
  | s, .getRevision ns n =>
      match lookupRev s.revisions (ns, n) with
      | some r => (.okRev r, s)
      | none => (.error .notFound, s)
  | s, .updateRevision ns r =>
      match lookupRev s.revisions (ns, r.name) with
      | some _ => (.okRev r, { s with revisions := setRev s.revisions (ns, r.name) r })
      | none => (.error .notFound, s)
  | s, .getCachedRevision ns n =>
      match lookupRev s.cache (ns, n) with
      | some r => (.okRev r, s)
      | none => (.error .notFound, s)
  | s, .getOrCreateNamespace _ => (.ok, s)

/-- The world a reconcile cycle runs in: the store, the fault-injection
schedule (one slot consumed per API call; `some e` forces that call to fail
with `e`), and the trace of calls issued so far. -/
structure World where
  store : Store
  faults : List (Option KErr)
  trace : List ApiCall
deriving DecidableEq, Repr

/-- Issue one API call: consume a fault slot, record the call in the trace,
and either fail with the injected error or run the normal store semantics. -/
def World.call (w : World) (c : ApiCall) : ApiResult × World :=
  match w.faults with
  | some e :: rest => (.error e, { w with faults := rest, trace := w.trace ++ [c] })
  | none :: rest =>
      let rs := w.store.apply c
      (rs.1, { store := rs.2, faults := rest, trace := w.trace ++ [c] })
  | [] =>
      let rs := w.store.apply c
      (rs.1, { store := rs.2, faults := [], trace := w.trace ++ [c] })

/-- Modelled from the spec: `util.GetRevisionDeploymentName` lives in
`pkg/controller/util`, which is not under `src/`; the spec only requires a
deterministic, collision-free name derived from the Revision's identity. -/
def GetRevisionDeploymentName (u : Revision) : String := u.name ++ "-deployment"

/-- Modelled from the spec: `util.GetRevisionPodName` is not under `src/`;
deterministic name derived from the Revision's identity. -/
def GetRevisionPodName (u : Revision) : String := u.name ++ "-pod"

/-- Modelled from the spec: `util.GetRevisionNginxConfigMapName` is not under
`src/`; deterministic name derived from the Revision's identity. -/
def GetRevisionNginxConfigMapName (u : Revision) : String := u.name ++ "-proxy-configmap"

/-- Modelled from the spec: `util.GetElaK8SServiceNameForRevision` is not
under `src/`; deterministic name derived from the Revision's identity. -/
def GetElaK8SServiceNameForRevision (u : Revision) : String := u.name ++ "-service"

/-- Modelled from the spec: `util.GetRevisionAutoscalerName` is not under
`src/`; deterministic name derived from the Revision's identity. -/
def GetRevisionAutoscalerName (u : Revision) : String := u.name ++ "-autoscaler"

/-- Modelled from the spec: `util.GetElaNamespaceName` is not under `src/`;
deterministic derived namespace for the Revision's child resources. -/
def GetElaNamespaceName (ns : String) : String := ns ++ "-ela"

/-- Embedding of `deleteDeployment` (controller.go lines 420-438): get the
deployment by its derived name; if the get fails with not-found, succeed;
otherwise issue a foreground-cascading delete, treating not-found as success
and returning any other delete error. -/
def deleteDeployment (u : Revision) (ns : String) (w : World) : Option KErr × World :=
  let deploymentName := GetRevisionDeploymentName u
  let gw := w.call (.getChild .deployment ns deploymentName)
  match gw.1 with
  | .error .notFound => (none, gw.2)
  | _ =>
    let dw := gw.2.call (.deleteChild .deployment ns deploymentName true)
    match dw.1 with
    | .error .notFound => (none, dw.2)
    | .error e => (some e, dw.2)
    | _ => (none, dw.2)

/-- Embedding of `deleteAutoscaler` (controller.go lines 572-591): same
shape as `deleteDeployment` for the HorizontalPodAutoscaler. -/
def deleteAutoscaler (u : Revision) (ns : String) (w : World) : Option KErr × World :=
  let autoscalerName := GetRevisionAutoscalerName u
  let gw := w.call (.getChild .autoscaler ns autoscalerName)
  match gw.1 with
  | .error .notFound => (none, gw.2)
  | _ =>
    let dw := gw.2.call (.deleteChild .autoscaler ns autoscalerName true)
    match dw.1 with
    | .error .notFound => (none, dw.2)
    | .error e => (some e, dw.2)
    | _ => (none, dw.2)

/-- Embedding of `deleteNginxConfig` (controller.go lines 488-506): same
shape as `deleteDeployment` for the nginx ConfigMap. -/
def deleteNginxConfig (u : Revision) (ns : String) (w : World) : Option KErr × World :=
  let configMapName := GetRevisionNginxConfigMapName u
  let gw := w.call (.getChild .configmap ns configMapName)
  match gw.1 with
  | .error .notFound => (none, gw.2)
  | _ =>
    let dw := gw.2.call (.deleteChild .configmap ns configMapName true)
    match dw.1 with
    | .error .notFound => (none, dw.2)
    | .error e => (some e, dw.2)
    | _ => (none, dw.2)

/-- Embedding of `deleteService` (controller.go lines 531-545): unlike the
other three deletes, there is no preceding get — the foreground-cascading
delete is issued directly; not-found is success, other errors are returned. -/
def deleteService (u : Revision) (ns : String) (w : World) : Option KErr × World :=
  let serviceName := GetElaK8SServiceNameForRevision u
  let dw := w.call (.deleteChild .service ns serviceName true)
  match dw.1 with
  | .error .notFound => (none, dw.2)
  | .error e => (some e, dw.2)
  | _ => (none, dw.2)

/-- Embedding of `reconcileDeployment` (controller.go lines 440-486): get
the deployment; a non-not-found get error is returned; if found, no-op; if
not found, create a Pod (its error only logged) and then create the
Deployment, returning the Deployment create's outcome. -/
def reconcileDeployment (u : Revision) (ns : String) (w : World) : Option KErr × World :=
  let deploymentName := GetRevisionDeploymentName u
  let gw := w.call (.getChild .deployment ns deploymentName)
  match gw.1 with
  | .error .notFound =>
    let pw := gw.2.call (.createChild .pod ns (GetRevisionPodName u) true)
    let cw := pw.2.call (.createChild .deployment ns deploymentName true)
    match cw.1 with
    | .error e2 => (some e2, cw.2)
    | _ => (none, cw.2)
  | .error e => (some e, gw.2)
  | _ => (none, gw.2)

/-- Embedding of `reconcileNginxConfig` (controller.go lines 508-529): get
the ConfigMap; a non-not-found get error is returned; if found, no-op; if
not found, create it with an owner reference and return the create's
outcome. -/
def reconcileNginxConfig (u : Revision) (ns : String) (w : World) : Option KErr × World :=
  let configMapName := GetRevisionNginxConfigMapName u
  let gw := w.call (.getChild .configmap ns configMapName)
  match gw.1 with
  | .error .notFound =>
    let cw := gw.2.call (.createChild .configmap ns configMapName true)
    match cw.1 with
    | .error e2 => (some e2, cw.2)
    | _ => (none, cw.2)
  | .error e => (some e, gw.2)
  | _ => (none, gw.2)

/-- Embedding of `reconcileAutoscaler` (controller.go lines 593-615): same
shape as `reconcileNginxConfig` for the HorizontalPodAutoscaler. -/
def reconcileAutoscaler (u : Revision) (ns : String) (w : World) : Option KErr × World :=
  let autoscalerName := GetRevisionAutoscalerName u
  let gw := w.call (.getChild .autoscaler ns autoscalerName)
  match gw.1 with
  | .error .notFound =>
    let cw := gw.2.call (.createChild .autoscaler ns autoscalerName true)
    match cw.1 with
    | .error e2 => (some e2, cw.2)
    | _ => (none, cw.2)
  | .error e => (some e, gw.2)
  | _ => (none, gw.2)

/-- Embedding of `reconcileService` (controller.go lines 547-570): get the
Service; a non-not-found get error is returned with an empty name; if found,
return the derived name with success; if not found, create it and return the
derived name together with the create's outcome. -/
def reconcileService (u : Revision) (ns : String) (w : World) :
    (String × Option KErr) × World :=
  let serviceName := GetElaK8SServiceNameForRevision u
  let gw := w.call (.getChild .service ns serviceName)
  match gw.1 with
  | .error .notFound =>
    let cw := gw.2.call (.createChild .service ns serviceName true)
    match cw.1 with
    | .error e2 => ((serviceName, some e2), cw.2)
    | _ => ((serviceName, none), cw.2)
  | .error e => (("", some e), gw.2)
  | _ => ((serviceName, none), gw.2)

/-- Embedding of `updateStatus` (controller.go lines 638-648): re-fetch the
stored Revision by the working copy's identity; on fetch error return it
without writing; otherwise copy only the status block of the working copy
onto the freshly fetched object and write that object back, returning the
update call's outcome. -/
def updateStatus (u : Revision) (w : World) :
    (Option Revision × Option KErr) × World :=
  let gw := w.call (.getRevision u.ns u.name)
  match gw.1 with
  | .okRev newu =>
    let newu2 := { newu with status := u.status }
    let uw := gw.2.call (.updateRevision u.ns newu2)
    match uw.1 with
    | .okRev r => ((some r, none), uw.2)
    | .error e => ((none, some e), uw.2)
    | .ok => ((none, none), uw.2)
  | .error e => ((none, some e), gw.2)
  | .ok => ((none, none), gw.2)

/-- Embedding of `createK8SResources` (controller.go lines 374-418):
reconcile the Deployment (an error aborts and is returned); then reconcile
autoscaler, configmap and service, logging their errors only; record the
service name on status when the service reconcile succeeded; set the status
conditions to `Ready=False, Reason=Deploying`; invoke `updateStatus` and
return its error, else success. -/
def createK8SResources (u : Revision) (ns : String) (w : World) : Option KErr × World :=
  let dw := reconcileDeployment u ns w
  match dw.1 with
  | some e => (some e, dw.2)
  | none =>
    let aw := reconcileAutoscaler u ns dw.2
    let nw := reconcileNginxConfig u ns aw.2
    let sw := reconcileService u ns nw.2
    let u1 :=
      match sw.1.2 with
      | some _ => u
      | none => { u with status := { u.status with serviceName := sw.1.1 } }
    let u2 := { u1 with status := { u1.status with conditions :=
        [{ type := "Ready", status := "False", reason := "Deploying" }] } }
    let uw := updateStatus u2 sw.2
    match uw.1.2 with
    | some e => (some e, uw.2)
    | none => (none, uw.2)

/-- Embedding of `deleteK8SResources` (controller.go lines 331-372): delete
deployment, autoscaler, configmap and service in that order, logging (and
discarding) each error; set the status conditions to
`Ready=False, Reason=Inactive`; invoke `updateStatus` and return its error,
else success. -/
def deleteK8SResources (u : Revision) (ns : String) (w : World) : Option KErr × World :=
  let w1 := (deleteDeployment u ns w).2
  let w2 := (deleteAutoscaler u ns w1).2
  let w3 := (deleteNginxConfig u ns w2).2
  let w4 := (deleteService u ns w3).2
  let u2 := { u with status := { u.status with conditions :=
      [{ type := "Ready", status := "False", reason := "Inactive" }] } }
  let uw := updateStatus u2 w4
  match uw.1.2 with
  | some e => (some e, uw.2)
  | none => (none, uw.2)

/-- Embedding of `reconcileWithImage` (controller.go lines 311-329): branch
on the deletion marker — no marker runs the create path, a set marker runs
the delete path — against the Revision's derived namespace.  (The `ns`
argument is received but the function recomputes the ela namespace itself,
as the source does.) -/
def reconcileWithImage (u : Revision) (ns : String) (w : World) : Option KErr × World :=
  let elaNS := GetElaNamespaceName u.ns
  match u.deletionTimestamp with
  | none => createK8SResources u elaNS w
  | some _ => deleteK8SResources u elaNS w

/-- Split a character list at every slash, preserving empty segments, as
Go's `strings.Split(key, "/")` does. -/
def splitOnSlash : List Char → List (List Char)
  | [] => [[]]
  | c :: rest =>
    match splitOnSlash rest with
    | [] => [[]]
    | s :: ss => if c = '/' then [] :: s :: ss else (c :: s) :: ss

/-- Modelled from the spec: `cache.SplitMetaNamespaceKey` is Kubernetes
library code, not under `src/`.  A key with no slash is a bare name, one
slash splits namespace/name, more slashes are malformed. -/
def SplitMetaNamespaceKey (key : String) : Option (String × String) :=
  match splitOnSlash key.data with
  | [n] => some ("", String.mk n)
  | [a, b] => some (String.mk a, String.mk b)
  | _ => none

/-- Outcome of one `syncHandler` cycle: a normal return of `nil`, a normal
return of an error (retryable), or a process abort via `panic`. -/
inductive SyncOutcome
  | ok
  | fail (e : KErr)
  | panicked
deriving DecidableEq, Repr

/-- Embedding of `syncHandler` (controller.go lines 279-308): split the key
(malformed keys are dropped with a nil return); fetch the Revision from the
informer cache (not-found is dropped with nil, other errors are returned);
get-or-create the derived namespace (an error here panics, aborting the
process); then run `reconcileWithImage` and return its error. -/
def syncHandler (key : String) (w : World) : SyncOutcome × World :=
  match SplitMetaNamespaceKey key with
  | none => (.ok, w)
  | some nsname =>
    let gw := w.call (.getCachedRevision nsname.1 nsname.2)
    match gw.1 with
    | .error .notFound => (.ok, gw.2)
    | .error e => (.fail e, gw.2)
    | .okRev rev =>
      let nw := gw.2.call (.getOrCreateNamespace nsname.1)
      match nw.1 with
      | .error _ => (.panicked, nw.2)
      | _ =>
        let rw := reconcileWithImage rev nsname.1 nw.2
        match rw.1 with
        | some e => (.fail e, rw.2)
        | none => (.ok, rw.2)
    | .ok => (.ok, gw.2)

/-- A store with no child objects where the Revision `u` is both stored and
present in the informer cache. -/
def freshStore (u : Revision) : Store :=
  { children := [], revisions := [((u.ns, u.name), u)], cache := [((u.ns, u.name), u)] }

/-- A world over store `s` with no injected faults and an empty trace. -/
def cleanWorld (s : Store) : World := { store := s, faults := [], trace := [] }

/-- A world over store `s` with fault schedule `fs` and an empty trace. -/
def faultyWorld (s : Store) (fs : List (Option KErr)) : World :=
  { store := s, faults := fs, trace := [] }

/-- The create calls occurring in a trace. -/
def createCalls (tr : List ApiCall) : List ApiCall :=
  tr.filter (fun c => match c with | .createChild _ _ _ _ => true | _ => false)

/-- How many child objects of kind `k` exist in the store. -/
def countChild (k : Kind) (s : Store) : Nat :=
  (s.children.filter (fun c => c.1 == k)).length

/-- A concrete active Revision used for witnesses and counterexamples. -/
def r1 : Revision :=
  { ns := "default", name := "r1", spec := 0, deletionTimestamp := none,
    status := { conditions := [], serviceName := "" } }

/-- The concrete Revision `r1` with its deletion marker set. -/
def r1del : Revision := { r1 with deletionTimestamp := some 1 }

/-- A store where all four child resources of `u` already exist under
namespace `ns` and the Revision `u` is stored and cached. -/
def allChildrenStore (u : Revision) (ns : String) : Store :=
  { children := [(.deployment, ns, GetRevisionDeploymentName u),
                 (.autoscaler, ns, GetRevisionAutoscalerName u),
                 (.configmap, ns, GetRevisionNginxConfigMapName u),
                 (.service, ns, GetElaK8SServiceNameForRevision u)],
    revisions := [((u.ns, u.name), u)], cache := [((u.ns, u.name), u)] }

/-- Execution of the create path on a fresh store (no children, Revision
stored): all five objects (pod included) are created and the status
updater stores the Revision with conditions `Ready=False, Reason=Deploying`
and the derived service name. -/
lemma runCreateFresh (u : Revision) (ns : String) :
    createK8SResources u ns (cleanWorld (freshStore u)) =
      (none, ⟨⟨[(.pod, ns, GetRevisionPodName u), (.deployment, ns, GetRevisionDeploymentName u),
          (.autoscaler, ns, GetRevisionAutoscalerName u),
          (.configmap, ns, GetRevisionNginxConfigMapName u),
          (.service, ns, GetElaK8SServiceNameForRevision u)],
         [((u.ns, u.name), { u with status :=
            { conditions := [{ type := "Ready", status := "False", reason := "Deploying" }],
              serviceName := GetElaK8SServiceNameForRevision u } })],
         [((u.ns, u.name), u)]⟩, [],
        [.getChild .deployment ns (GetRevisionDeploymentName u),
         .createChild .pod ns (GetRevisionPodName u) true,
         .createChild .deployment ns (GetRevisionDeploymentName u) true,
         .getChild .autoscaler ns (GetRevisionAutoscalerName u),
         .createChild .autoscaler ns (GetRevisionAutoscalerName u) true,
         .getChild .configmap ns (GetRevisionNginxConfigMapName u),
         .createChild .configmap ns (GetRevisionNginxConfigMapName u) true,
         .getChild .service ns (GetElaK8SServiceNameForRevision u),
         .createChild .service ns (GetElaK8SServiceNameForRevision u) true,
         .getRevision u.ns u.name,
         .updateRevision u.ns { u with status :=
            { conditions := [{ type := "Ready", status := "False", reason := "Deploying" }],
              serviceName := GetElaK8SServiceNameForRevision u } }]⟩) := by
  have h1 : reconcileDeployment u ns (cleanWorld (freshStore u)) =
      (none, ⟨⟨[(.pod, ns, GetRevisionPodName u), (.deployment, ns, GetRevisionDeploymentName u)],
        [((u.ns, u.name), u)], [((u.ns, u.name), u)]⟩, [],
        [.getChild .deployment ns (GetRevisionDeploymentName u),
         .createChild .pod ns (GetRevisionPodName u) true,
         .createChild .deployment ns (GetRevisionDeploymentName u) true]⟩) := rfl
  have h2 : reconcileAutoscaler u ns
      ⟨⟨[(.pod, ns, GetRevisionPodName u), (.deployment, ns, GetRevisionDeploymentName u)],
        [((u.ns, u.name), u)], [((u.ns, u.name), u)]⟩, [],
        [.getChild .deployment ns (GetRevisionDeploymentName u),
         .createChild .pod ns (GetRevisionPodName u) true,
         .createChild .deployment ns (GetRevisionDeploymentName u) true]⟩ =
      (none, ⟨⟨[(.pod, ns, GetRevisionPodName u), (.deployment, ns, GetRevisionDeploymentName u),
          (.autoscaler, ns, GetRevisionAutoscalerName u)],
        [((u.ns, u.name), u)], [((u.ns, u.name), u)]⟩, [],
        [.getChild .deployment ns (GetRevisionDeploymentName u),
         .createChild .pod ns (GetRevisionPodName u) true,
         .createChild .deployment ns (GetRevisionDeploymentName u) true,
         .getChild .autoscaler ns (GetRevisionAutoscalerName u),
         .createChild .autoscaler ns (GetRevisionAutoscalerName u) true]⟩) := rfl
  have h3 : reconcileNginxConfig u ns
      ⟨⟨[(.pod, ns, GetRevisionPodName u), (.deployment, ns, GetRevisionDeploymentName u),
          (.autoscaler, ns, GetRevisionAutoscalerName u)],
        [((u.ns, u.name), u)], [((u.ns, u.name), u)]⟩, [],
        [.getChild .deployment ns (GetRevisionDeploymentName u),
         .createChild .pod ns (GetRevisionPodName u) true,
         .createChild .deployment ns (GetRevisionDeploymentName u) true,
         .getChild .autoscaler ns (GetRevisionAutoscalerName u),
         .createChild .autoscaler ns (GetRevisionAutoscalerName u) true]⟩ =
      (none, ⟨⟨[(.pod, ns, GetRevisionPodName u), (.deployment, ns, GetRevisionDeploymentName u),
          (.autoscaler, ns, GetRevisionAutoscalerName u),
          (.configmap, ns, GetRevisionNginxConfigMapName u)],
        [((u.ns, u.name), u)], [((u.ns, u.name), u)]⟩, [],
        [.getChild .deployment ns (GetRevisionDeploymentName u),
         .createChild .pod ns (GetRevisionPodName u) true,
         .createChild .deployment ns (GetRevisionDeploymentName u) true,
         .getChild .autoscaler ns (GetRevisionAutoscalerName u),
         .createChild .autoscaler ns (GetRevisionAutoscalerName u) true,
         .getChild .configmap ns (GetRevisionNginxConfigMapName u),
         .createChild .configmap ns (GetRevisionNginxConfigMapName u) true]⟩) := rfl
  have h4 : reconcileService u ns
      ⟨⟨[(.pod, ns, GetRevisionPodName u), (.deployment, ns, GetRevisionDeploymentName u),
          (.autoscaler, ns, GetRevisionAutoscalerName u),
          (.configmap, ns, GetRevisionNginxConfigMapName u)],
        [((u.ns, u.name), u)], [((u.ns, u.name), u)]⟩, [],
        [.getChild .deployment ns (GetRevisionDeploymentName u),
         .createChild .pod ns (GetRevisionPodName u) true,
         .createChild .deployment ns (GetRevisionDeploymentName u) true,
         .getChild .autoscaler ns (GetRevisionAutoscalerName u),
         .createChild .autoscaler ns (GetRevisionAutoscalerName u) true,
         .getChild .configmap ns (GetRevisionNginxConfigMapName u),
         .createChild .configmap ns (GetRevisionNginxConfigMapName u) true]⟩ =
      ((GetElaK8SServiceNameForRevision u, none),
       ⟨⟨[(.pod, ns, GetRevisionPodName u), (.deployment, ns, GetRevisionDeploymentName u),
          (.autoscaler, ns, GetRevisionAutoscalerName u),
          (.configmap, ns, GetRevisionNginxConfigMapName u),
          (.service, ns, GetElaK8SServiceNameForRevision u)],
         [((u.ns, u.name), u)], [((u.ns, u.name), u)]⟩, [],
        [.getChild .deployment ns (GetRevisionDeploymentName u),
         .createChild .pod ns (GetRevisionPodName u) true,
         .createChild .deployment ns (GetRevisionDeploymentName u) true,
         .getChild .autoscaler ns (GetRevisionAutoscalerName u),
         .createChild .autoscaler ns (GetRevisionAutoscalerName u) true,
         .getChild .configmap ns (GetRevisionNginxConfigMapName u),
         .createChild .configmap ns (GetRevisionNginxConfigMapName u) true,
         .getChild .service ns (GetElaK8SServiceNameForRevision u),
         .createChild .service ns (GetElaK8SServiceNameForRevision u) true]⟩) := rfl
  have h5 : updateStatus
      { u with status :=
          { conditions := [{ type := "Ready", status := "False", reason := "Deploying" }],
            serviceName := GetElaK8SServiceNameForRevision u } }
      ⟨⟨[(.pod, ns, GetRevisionPodName u), (.deployment, ns, GetRevisionDeploymentName u),
          (.autoscaler, ns, GetRevisionAutoscalerName u),
          (.configmap, ns, GetRevisionNginxConfigMapName u),
          (.service, ns, GetElaK8SServiceNameForRevision u)],
         [((u.ns, u.name), u)], [((u.ns, u.name), u)]⟩, [],
        [.getChild .deployment ns (GetRevisionDeploymentName u),
         .createChild .pod ns (GetRevisionPodName u) true,
         .createChild .deployment ns (GetRevisionDeploymentName u) true,
         .getChild .autoscaler ns (GetRevisionAutoscalerName u),
         .createChild .autoscaler ns (GetRevisionAutoscalerName u) true,
         .getChild .configmap ns (GetRevisionNginxConfigMapName u),
         .createChild .configmap ns (GetRevisionNginxConfigMapName u) true,
         .getChild .service ns (GetElaK8SServiceNameForRevision u),
         .createChild .service ns (GetElaK8SServiceNameForRevision u) true]⟩ =
      ((some { u with status :=
          { conditions := [{ type := "Ready", status := "False", reason := "Deploying" }],
            serviceName := GetElaK8SServiceNameForRevision u } }, none),
       ⟨⟨[(.pod, ns, GetRevisionPodName u), (.deployment, ns, GetRevisionDeploymentName u),
          (.autoscaler, ns, GetRevisionAutoscalerName u),
          (.configmap, ns, GetRevisionNginxConfigMapName u),
          (.service, ns, GetElaK8SServiceNameForRevision u)],
         [((u.ns, u.name), { u with status :=
            { conditions := [{ type := "Ready", status := "False", reason := "Deploying" }],
              serviceName := GetElaK8SServiceNameForRevision u } })],
         [((u.ns, u.name), u)]⟩, [],
        [.getChild .deployment ns (GetRevisionDeploymentName u),
         .createChild .pod ns (GetRevisionPodName u) true,
         .createChild .deployment ns (GetRevisionDeploymentName u) true,
         .getChild .autoscaler ns (GetRevisionAutoscalerName u),
         .createChild .autoscaler ns (GetRevisionAutoscalerName u) true,
         .getChild .configmap ns (GetRevisionNginxConfigMapName u),
         .createChild .configmap ns (GetRevisionNginxConfigMapName u) true,
         .getChild .service ns (GetElaK8SServiceNameForRevision u),
         .createChild .service ns (GetElaK8SServiceNameForRevision u) true,
         .getRevision u.ns u.name,
         .updateRevision u.ns { u with status :=
            { conditions := [{ type := "Ready", status := "False", reason := "Deploying" }],
              serviceName := GetElaK8SServiceNameForRevision u } }]⟩) := by
    simp [updateStatus, World.call, Store.apply, lookupRev, setRev]
  simp [createK8SResources, h1, h2, h3, h4, h5]

/-- Execution of the create path on a fresh store when the final status
update call fails with `e`: everything is created, the status update is
attempted, and `e` is returned as the cycle error. -/
lemma runCreateFreshFault (u : Revision) (ns : String) (e : KErr) :
    createK8SResources u ns (faultyWorld (freshStore u)
      [none, none, none, none, none, none, none, none, none, none, some e]) =
      (some e,
       ⟨⟨[(.pod, ns, (GetRevisionPodName u)),
         (.deployment, ns, (GetRevisionDeploymentName u)),
         (.autoscaler, ns, (GetRevisionAutoscalerName u)),
         (.configmap, ns, (GetRevisionNginxConfigMapName u)),
         (.service, ns, (GetElaK8SServiceNameForRevision u))],
        [((u.ns, u.name), u)], [((u.ns, u.name), u)]⟩, [],
       [.getChild .deployment ns (GetRevisionDeploymentName u),
        .createChild .pod ns (GetRevisionPodName u) true,
        .createChild .deployment ns (GetRevisionDeploymentName u) true,
        .getChild .autoscaler ns (GetRevisionAutoscalerName u),
        .createChild .autoscaler ns (GetRevisionAutoscalerName u) true,
        .getChild .configmap ns (GetRevisionNginxConfigMapName u),
        .createChild .configmap ns (GetRevisionNginxConfigMapName u) true,
        .getChild .service ns (GetElaK8SServiceNameForRevision u),
        .createChild .service ns (GetElaK8SServiceNameForRevision u) true,
        .getRevision u.ns u.name,
        .updateRevision u.ns { u with status := { conditions := [{ type := "Ready", status := "False", reason := "Deploying" }], serviceName := GetElaK8SServiceNameForRevision u } }]⟩) := by
  have h1 : reconcileDeployment u ns (faultyWorld (freshStore u)
      [none, none, none, none, none, none, none, none, none, none, some e]) =
      (none,
       ⟨⟨[(.pod, ns, (GetRevisionPodName u)),
         (.deployment, ns, (GetRevisionDeploymentName u))],
        [((u.ns, u.name), u)], [((u.ns, u.name), u)]⟩, [none, none, none, none, none, none, none, some e],
       [.getChild .deployment ns (GetRevisionDeploymentName u),
        .createChild .pod ns (GetRevisionPodName u) true,
        .createChild .deployment ns (GetRevisionDeploymentName u) true]⟩) := rfl
  have h2 : reconcileAutoscaler u ns
      ⟨⟨[(.pod, ns, (GetRevisionPodName u)),
         (.deployment, ns, (GetRevisionDeploymentName u))],
        [((u.ns, u.name), u)], [((u.ns, u.name), u)]⟩, [none, none, none, none, none, none, none, some e],
       [.getChild .deployment ns (GetRevisionDeploymentName u),
        .createChild .pod ns (GetRevisionPodName u) true,
        .createChild .deployment ns (GetRevisionDeploymentName u) true]⟩ =
      (none,
       ⟨⟨[(.pod, ns, (GetRevisionPodName u)),
         (.deployment, ns, (GetRevisionDeploymentName u)),
         (.autoscaler, ns, (GetRevisionAutoscalerName u))],
        [((u.ns, u.name), u)], [((u.ns, u.name), u)]⟩, [none, none, none, none, none, some e],
       [.getChild .deployment ns (GetRevisionDeploymentName u),
        .createChild .pod ns (GetRevisionPodName u) true,
        .createChild .deployment ns (GetRevisionDeploymentName u) true,
        .getChild .autoscaler ns (GetRevisionAutoscalerName u),
        .createChild .autoscaler ns (GetRevisionAutoscalerName u) true]⟩) := rfl
  have h3 : reconcileNginxConfig u ns
      ⟨⟨[(.pod, ns, (GetRevisionPodName u)),
         (.deployment, ns, (GetRevisionDeploymentName u)),
         (.autoscaler, ns, (GetRevisionAutoscalerName u))],
        [((u.ns, u.name), u)], [((u.ns, u.name), u)]⟩, [none, none, none, none, none, some e],
       [.getChild .deployment ns (GetRevisionDeploymentName u),
        .createChild .pod ns (GetRevisionPodName u) true,
        .createChild .deployment ns (GetRevisionDeploymentName u) true,
        .getChild .autoscaler ns (GetRevisionAutoscalerName u),
        .createChild .autoscaler ns (GetRevisionAutoscalerName u) true]⟩ =
      (none,
       ⟨⟨[(.pod, ns, (GetRevisionPodName u)),
         (.deployment, ns, (GetRevisionDeploymentName u)),
         (.autoscaler, ns, (GetRevisionAutoscalerName u)),
         (.configmap, ns, (GetRevisionNginxConfigMapName u))],
        [((u.ns, u.name), u)], [((u.ns, u.name), u)]⟩, [none, none, none, some e],
       [.getChild .deployment ns (GetRevisionDeploymentName u),
        .createChild .pod ns (GetRevisionPodName u) true,
        .createChild .deployment ns (GetRevisionDeploymentName u) true,
        .getChild .autoscaler ns (GetRevisionAutoscalerName u),
        .createChild .autoscaler ns (GetRevisionAutoscalerName u) true,
        .getChild .configmap ns (GetRevisionNginxConfigMapName u),
        .createChild .configmap ns (GetRevisionNginxConfigMapName u) true]⟩) := rfl
  have h4 : reconcileService u ns
      ⟨⟨[(.pod, ns, (GetRevisionPodName u)),
         (.deployment, ns, (GetRevisionDeploymentName u)),
         (.autoscaler, ns, (GetRevisionAutoscalerName u)),
         (.configmap, ns, (GetRevisionNginxConfigMapName u))],
        [((u.ns, u.name), u)], [((u.ns, u.name), u)]⟩, [none, none, none, some e],
       [.getChild .deployment ns (GetRevisionDeploymentName u),
        .createChild .pod ns (GetRevisionPodName u) true,
        .createChild .deployment ns (GetRevisionDeploymentName u) true,
        .getChild .autoscaler ns (GetRevisionAutoscalerName u),
        .createChild .autoscaler ns (GetRevisionAutoscalerName u) true,
        .getChild .configmap ns (GetRevisionNginxConfigMapName u),
        .createChild .configmap ns (GetRevisionNginxConfigMapName u) true]⟩ =
      ((GetElaK8SServiceNameForRevision u, none),
       ⟨⟨[(.pod, ns, (GetRevisionPodName u)),
         (.deployment, ns, (GetRevisionDeploymentName u)),
         (.autoscaler, ns, (GetRevisionAutoscalerName u)),
         (.configmap, ns, (GetRevisionNginxConfigMapName u)),
         (.service, ns, (GetElaK8SServiceNameForRevision u))],
        [((u.ns, u.name), u)], [((u.ns, u.name), u)]⟩, [none, some e],
       [.getChild .deployment ns (GetRevisionDeploymentName u),
        .createChild .pod ns (GetRevisionPodName u) true,
        .createChild .deployment ns (GetRevisionDeploymentName u) true,
        .getChild .autoscaler ns (GetRevisionAutoscalerName u),
        .createChild .autoscaler ns (GetRevisionAutoscalerName u) true,
        .getChild .configmap ns (GetRevisionNginxConfigMapName u),
        .createChild .configmap ns (GetRevisionNginxConfigMapName u) true,
        .getChild .service ns (GetElaK8SServiceNameForRevision u),
        .createChild .service ns (GetElaK8SServiceNameForRevision u) true]⟩) := rfl
  have h5 : updateStatus
      { u with status := { conditions := [{ type := "Ready", status := "False", reason := "Deploying" }], serviceName := GetElaK8SServiceNameForRevision u } }
      ⟨⟨[(.pod, ns, (GetRevisionPodName u)),
         (.deployment, ns, (GetRevisionDeploymentName u)),
         (.autoscaler, ns, (GetRevisionAutoscalerName u)),
         (.configmap, ns, (GetRevisionNginxConfigMapName u)),
         (.service, ns, (GetElaK8SServiceNameForRevision u))],
        [((u.ns, u.name), u)], [((u.ns, u.name), u)]⟩, [none, some e],
       [.getChild .deployment ns (GetRevisionDeploymentName u),
        .createChild .pod ns (GetRevisionPodName u) true,
        .createChild .deployment ns (GetRevisionDeploymentName u) true,
        .getChild .autoscaler ns (GetRevisionAutoscalerName u),
        .createChild .autoscaler ns (GetRevisionAutoscalerName u) true,
        .getChild .configmap ns (GetRevisionNginxConfigMapName u),
        .createChild .configmap ns (GetRevisionNginxConfigMapName u) true,
        .getChild .service ns (GetElaK8SServiceNameForRevision u),
        .createChild .service ns (GetElaK8SServiceNameForRevision u) true]⟩ =
      ((none, some e),
       ⟨⟨[(.pod, ns, (GetRevisionPodName u)),
         (.deployment, ns, (GetRevisionDeploymentName u)),
         (.autoscaler, ns, (GetRevisionAutoscalerName u)),
         (.configmap, ns, (GetRevisionNginxConfigMapName u)),
         (.service, ns, (GetElaK8SServiceNameForRevision u))],
        [((u.ns, u.name), u)], [((u.ns, u.name), u)]⟩, [],
       [.getChild .deployment ns (GetRevisionDeploymentName u),
        .createChild .pod ns (GetRevisionPodName u) true,
        .createChild .deployment ns (GetRevisionDeploymentName u) true,
        .getChild .autoscaler ns (GetRevisionAutoscalerName u),
        .createChild .autoscaler ns (GetRevisionAutoscalerName u) true,
        .getChild .configmap ns (GetRevisionNginxConfigMapName u),
        .createChild .configmap ns (GetRevisionNginxConfigMapName u) true,
        .getChild .service ns (GetElaK8SServiceNameForRevision u),
        .createChild .service ns (GetElaK8SServiceNameForRevision u) true,
        .getRevision u.ns u.name,
        .updateRevision u.ns { u with status := { conditions := [{ type := "Ready", status := "False", reason := "Deploying" }], serviceName := GetElaK8SServiceNameForRevision u } }]⟩) := by
    simp [updateStatus, World.call, Store.apply, lookupRev, setRev]
  simp [createK8SResources, h1, h2, h3, h4, h5]

/-- Execution of the create path when all five objects already exist and
the stored Revision already carries the Deploying status: every reconcile
is a get-only no-op (no create calls), and the status update rewrites the
same status. -/
lemma runCreateSecond (u : Revision) (ns : String) :
    createK8SResources u ns (cleanWorld
      ⟨[(.pod, ns, (GetRevisionPodName u)),
         (.deployment, ns, (GetRevisionDeploymentName u)),
         (.autoscaler, ns, (GetRevisionAutoscalerName u)),
         (.configmap, ns, (GetRevisionNginxConfigMapName u)),
         (.service, ns, (GetElaK8SServiceNameForRevision u))],
       [((u.ns, u.name), { u with status := { conditions := [{ type := "Ready", status := "False", reason := "Deploying" }], serviceName := GetElaK8SServiceNameForRevision u } })], [((u.ns, u.name), u)]⟩) =
      (none,
       ⟨⟨[(.pod, ns, (GetRevisionPodName u)),
         (.deployment, ns, (GetRevisionDeploymentName u)),
         (.autoscaler, ns, (GetRevisionAutoscalerName u)),
         (.configmap, ns, (GetRevisionNginxConfigMapName u)),
         (.service, ns, (GetElaK8SServiceNameForRevision u))],
        [((u.ns, u.name), { u with status := { conditions := [{ type := "Ready", status := "False", reason := "Deploying" }], serviceName := GetElaK8SServiceNameForRevision u } })], [((u.ns, u.name), u)]⟩, [],
       [.getChild .deployment ns (GetRevisionDeploymentName u),
        .getChild .autoscaler ns (GetRevisionAutoscalerName u),
        .getChild .configmap ns (GetRevisionNginxConfigMapName u),
        .getChild .service ns (GetElaK8SServiceNameForRevision u),
        .getRevision u.ns u.name,
        .updateRevision u.ns { u with status := { conditions := [{ type := "Ready", status := "False", reason := "Deploying" }], serviceName := GetElaK8SServiceNameForRevision u } }]⟩) := by
  have h1 : reconcileDeployment u ns (cleanWorld
      ⟨[(.pod, ns, (GetRevisionPodName u)),
         (.deployment, ns, (GetRevisionDeploymentName u)),
         (.autoscaler, ns, (GetRevisionAutoscalerName u)),
         (.configmap, ns, (GetRevisionNginxConfigMapName u)),
         (.service, ns, (GetElaK8SServiceNameForRevision u))],
       [((u.ns, u.name), { u with status := { conditions := [{ type := "Ready", status := "False", reason := "Deploying" }], serviceName := GetElaK8SServiceNameForRevision u } })], [((u.ns, u.name), u)]⟩) =
      (none,
       ⟨⟨[(.pod, ns, (GetRevisionPodName u)),
         (.deployment, ns, (GetRevisionDeploymentName u)),
         (.autoscaler, ns, (GetRevisionAutoscalerName u)),
         (.configmap, ns, (GetRevisionNginxConfigMapName u)),
         (.service, ns, (GetElaK8SServiceNameForRevision u))],
        [((u.ns, u.name), { u with status := { conditions := [{ type := "Ready", status := "False", reason := "Deploying" }], serviceName := GetElaK8SServiceNameForRevision u } })], [((u.ns, u.name), u)]⟩, [],
       [.getChild .deployment ns (GetRevisionDeploymentName u)]⟩) := by
    simp [reconcileDeployment, reconcileAutoscaler, reconcileNginxConfig, reconcileService,
      World.call, Store.apply, cleanWorld]
  have h2 : reconcileAutoscaler u ns
      ⟨⟨[(.pod, ns, (GetRevisionPodName u)),
         (.deployment, ns, (GetRevisionDeploymentName u)),
         (.autoscaler, ns, (GetRevisionAutoscalerName u)),
         (.configmap, ns, (GetRevisionNginxConfigMapName u)),
         (.service, ns, (GetElaK8SServiceNameForRevision u))],
        [((u.ns, u.name), { u with status := { conditions := [{ type := "Ready", status := "False", reason := "Deploying" }], serviceName := GetElaK8SServiceNameForRevision u } })], [((u.ns, u.name), u)]⟩, [],
       [.getChild .deployment ns (GetRevisionDeploymentName u)]⟩ =
      (none,
       ⟨⟨[(.pod, ns, (GetRevisionPodName u)),
         (.deployment, ns, (GetRevisionDeploymentName u)),
         (.autoscaler, ns, (GetRevisionAutoscalerName u)),
         (.configmap, ns, (GetRevisionNginxConfigMapName u)),
         (.service, ns, (GetElaK8SServiceNameForRevision u))],
        [((u.ns, u.name), { u with status := { conditions := [{ type := "Ready", status := "False", reason := "Deploying" }], serviceName := GetElaK8SServiceNameForRevision u } })], [((u.ns, u.name), u)]⟩, [],
       [.getChild .deployment ns (GetRevisionDeploymentName u),
        .getChild .autoscaler ns (GetRevisionAutoscalerName u)]⟩) := by
    simp [reconcileDeployment, reconcileAutoscaler, reconcileNginxConfig, reconcileService,
      World.call, Store.apply, cleanWorld]
  have h3 : reconcileNginxConfig u ns
      ⟨⟨[(.pod, ns, (GetRevisionPodName u)),
         (.deployment, ns, (GetRevisionDeploymentName u)),
         (.autoscaler, ns, (GetRevisionAutoscalerName u)),
         (.configmap, ns, (GetRevisionNginxConfigMapName u)),
         (.service, ns, (GetElaK8SServiceNameForRevision u))],
        [((u.ns, u.name), { u with status := { conditions := [{ type := "Ready", status := "False", reason := "Deploying" }], serviceName := GetElaK8SServiceNameForRevision u } })], [((u.ns, u.name), u)]⟩, [],
       [.getChild .deployment ns (GetRevisionDeploymentName u),
        .getChild .autoscaler ns (GetRevisionAutoscalerName u)]⟩ =
      (none,
       ⟨⟨[(.pod, ns, (GetRevisionPodName u)),
         (.deployment, ns, (GetRevisionDeploymentName u)),
         (.autoscaler, ns, (GetRevisionAutoscalerName u)),
         (.configmap, ns, (GetRevisionNginxConfigMapName u)),
         (.service, ns, (GetElaK8SServiceNameForRevision u))],
        [((u.ns, u.name), { u with status := { conditions := [{ type := "Ready", status := "False", reason := "Deploying" }], serviceName := GetElaK8SServiceNameForRevision u } })], [((u.ns, u.name), u)]⟩, [],
       [.getChild .deployment ns (GetRevisionDeploymentName u),
        .getChild .autoscaler ns (GetRevisionAutoscalerName u),
        .getChild .configmap ns (GetRevisionNginxConfigMapName u)]⟩) := by
    simp [reconcileDeployment, reconcileAutoscaler, reconcileNginxConfig, reconcileService,
      World.call, Store.apply, cleanWorld]
  have h4 : reconcileService u ns
      ⟨⟨[(.pod, ns, (GetRevisionPodName u)),
         (.deployment, ns, (GetRevisionDeploymentName u)),
         (.autoscaler, ns, (GetRevisionAutoscalerName u)),
         (.configmap, ns, (GetRevisionNginxConfigMapName u)),
         (.service, ns, (GetElaK8SServiceNameForRevision u))],
        [((u.ns, u.name), { u with status := { conditions := [{ type := "Ready", status := "False", reason := "Deploying" }], serviceName := GetElaK8SServiceNameForRevision u } })], [((u.ns, u.name), u)]⟩, [],
       [.getChild .deployment ns (GetRevisionDeploymentName u),
        .getChild .autoscaler ns (GetRevisionAutoscalerName u),
        .getChild .configmap ns (GetRevisionNginxConfigMapName u)]⟩ =
      ((GetElaK8SServiceNameForRevision u, none),
       ⟨⟨[(.pod, ns, (GetRevisionPodName u)),
         (.deployment, ns, (GetRevisionDeploymentName u)),
         (.autoscaler, ns, (GetRevisionAutoscalerName u)),
         (.configmap, ns, (GetRevisionNginxConfigMapName u)),
         (.service, ns, (GetElaK8SServiceNameForRevision u))],
        [((u.ns, u.name), { u with status := { conditions := [{ type := "Ready", status := "False", reason := "Deploying" }], serviceName := GetElaK8SServiceNameForRevision u } })], [((u.ns, u.name), u)]⟩, [],
       [.getChild .deployment ns (GetRevisionDeploymentName u),
        .getChild .autoscaler ns (GetRevisionAutoscalerName u),
        .getChild .configmap ns (GetRevisionNginxConfigMapName u),
        .getChild .service ns (GetElaK8SServiceNameForRevision u)]⟩) := by
    simp [reconcileDeployment, reconcileAutoscaler, reconcileNginxConfig, reconcileService,
      World.call, Store.apply, cleanWorld]
  have h5 : updateStatus
      { u with status := { conditions := [{ type := "Ready", status := "False", reason := "Deploying" }], serviceName := GetElaK8SServiceNameForRevision u } }
      ⟨⟨[(.pod, ns, (GetRevisionPodName u)),
         (.deployment, ns, (GetRevisionDeploymentName u)),
         (.autoscaler, ns, (GetRevisionAutoscalerName u)),
         (.configmap, ns, (GetRevisionNginxConfigMapName u)),
         (.service, ns, (GetElaK8SServiceNameForRevision u))],
        [((u.ns, u.name), { u with status := { conditions := [{ type := "Ready", status := "False", reason := "Deploying" }], serviceName := GetElaK8SServiceNameForRevision u } })], [((u.ns, u.name), u)]⟩, [],
       [.getChild .deployment ns (GetRevisionDeploymentName u),
        .getChild .autoscaler ns (GetRevisionAutoscalerName u),
        .getChild .configmap ns (GetRevisionNginxConfigMapName u),
        .getChild .service ns (GetElaK8SServiceNameForRevision u)]⟩ =
      ((some { u with status := { conditions := [{ type := "Ready", status := "False", reason := "Deploying" }], serviceName := GetElaK8SServiceNameForRevision u } }, none),
       ⟨⟨[(.pod, ns, (GetRevisionPodName u)),
         (.deployment, ns, (GetRevisionDeploymentName u)),
         (.autoscaler, ns, (GetRevisionAutoscalerName u)),
         (.configmap, ns, (GetRevisionNginxConfigMapName u)),
         (.service, ns, (GetElaK8SServiceNameForRevision u))],
        [((u.ns, u.name), { u with status := { conditions := [{ type := "Ready", status := "False", reason := "Deploying" }], serviceName := GetElaK8SServiceNameForRevision u } })], [((u.ns, u.name), u)]⟩, [],
       [.getChild .deployment ns (GetRevisionDeploymentName u),
        .getChild .autoscaler ns (GetRevisionAutoscalerName u),
        .getChild .configmap ns (GetRevisionNginxConfigMapName u),
        .getChild .service ns (GetElaK8SServiceNameForRevision u),
        .getRevision u.ns u.name,
        .updateRevision u.ns { u with status := { conditions := [{ type := "Ready", status := "False", reason := "Deploying" }], serviceName := GetElaK8SServiceNameForRevision u } }]⟩) := by
    simp [updateStatus, World.call, Store.apply, lookupRev, setRev]
  simp [createK8SResources, h1, h2, h3, h4, h5]

/-- Execution of the delete path when no child exists: the three get-first
deletes see not-found, the service delete call itself returns not-found,
all are treated as success, and the status updater stores the Revision
with conditions `Ready=False, Reason=Inactive`. -/
lemma runDeleteAbsent (u : Revision) (ns : String) :
    deleteK8SResources u ns (cleanWorld (freshStore u)) =
      (none,
       ⟨⟨[],
        [((u.ns, u.name), { u with status := { conditions := [{ type := "Ready", status := "False", reason := "Inactive" }], serviceName := u.status.serviceName } })], [((u.ns, u.name), u)]⟩, [],
       [.getChild .deployment ns (GetRevisionDeploymentName u),
        .getChild .autoscaler ns (GetRevisionAutoscalerName u),
        .getChild .configmap ns (GetRevisionNginxConfigMapName u),
        .deleteChild .service ns (GetElaK8SServiceNameForRevision u) true,
        .getRevision u.ns u.name,
        .updateRevision u.ns { u with status := { conditions := [{ type := "Ready", status := "False", reason := "Inactive" }], serviceName := u.status.serviceName } }]⟩) := by
  have d1 : deleteDeployment u ns (cleanWorld (freshStore u)) =
      (none,
       ⟨⟨[],
        [((u.ns, u.name), u)], [((u.ns, u.name), u)]⟩, [],
       [.getChild .deployment ns (GetRevisionDeploymentName u)]⟩) := rfl
  have d2 : deleteAutoscaler u ns
      ⟨⟨[],
        [((u.ns, u.name), u)], [((u.ns, u.name), u)]⟩, [],
       [.getChild .deployment ns (GetRevisionDeploymentName u)]⟩ =
      (none,
       ⟨⟨[],
        [((u.ns, u.name), u)], [((u.ns, u.name), u)]⟩, [],
       [.getChild .deployment ns (GetRevisionDeploymentName u),
        .getChild .autoscaler ns (GetRevisionAutoscalerName u)]⟩) := rfl
  have d3 : deleteNginxConfig u ns
      ⟨⟨[],
        [((u.ns, u.name), u)], [((u.ns, u.name), u)]⟩, [],
       [.getChild .deployment ns (GetRevisionDeploymentName u),
        .getChild .autoscaler ns (GetRevisionAutoscalerName u)]⟩ =
      (none,
       ⟨⟨[],
        [((u.ns, u.name), u)], [((u.ns, u.name), u)]⟩, [],
       [.getChild .deployment ns (GetRevisionDeploymentName u),
        .getChild .autoscaler ns (GetRevisionAutoscalerName u),
        .getChild .configmap ns (GetRevisionNginxConfigMapName u)]⟩) := rfl
  have d4 : deleteService u ns
      ⟨⟨[],
        [((u.ns, u.name), u)], [((u.ns, u.name), u)]⟩, [],
       [.getChild .deployment ns (GetRevisionDeploymentName u),
        .getChild .autoscaler ns (GetRevisionAutoscalerName u),
        .getChild .configmap ns (GetRevisionNginxConfigMapName u)]⟩ =
      (none,
       ⟨⟨[],
        [((u.ns, u.name), u)], [((u.ns, u.name), u)]⟩, [],
       [.getChild .deployment ns (GetRevisionDeploymentName u),
        .getChild .autoscaler ns (GetRevisionAutoscalerName u),
        .getChild .configmap ns (GetRevisionNginxConfigMapName u),
        .deleteChild .service ns (GetElaK8SServiceNameForRevision u) true]⟩) := rfl
  have h5 : updateStatus
      { u with status := { conditions := [{ type := "Ready", status := "False", reason := "Inactive" }], serviceName := u.status.serviceName } }
      ⟨⟨[],
        [((u.ns, u.name), u)], [((u.ns, u.name), u)]⟩, [],
       [.getChild .deployment ns (GetRevisionDeploymentName u),
        .getChild .autoscaler ns (GetRevisionAutoscalerName u),
        .getChild .configmap ns (GetRevisionNginxConfigMapName u),
        .deleteChild .service ns (GetElaK8SServiceNameForRevision u) true]⟩ =
      ((some { u with status := { conditions := [{ type := "Ready", status := "False", reason := "Inactive" }], serviceName := u.status.serviceName } }, none),
       ⟨⟨[],
        [((u.ns, u.name), { u with status := { conditions := [{ type := "Ready", status := "False", reason := "Inactive" }], serviceName := u.status.serviceName } })], [((u.ns, u.name), u)]⟩, [],
       [.getChild .deployment ns (GetRevisionDeploymentName u),
        .getChild .autoscaler ns (GetRevisionAutoscalerName u),
        .getChild .configmap ns (GetRevisionNginxConfigMapName u),
        .deleteChild .service ns (GetElaK8SServiceNameForRevision u) true,
        .getRevision u.ns u.name,
        .updateRevision u.ns { u with status := { conditions := [{ type := "Ready", status := "False", reason := "Inactive" }], serviceName := u.status.serviceName } }]⟩) := by
    simp [updateStatus, World.call, Store.apply, lookupRev, setRev]
  simp [deleteK8SResources, d1, d2, d3, d4, h5]

/-- Execution of the delete path on an already-clean store when the final
status update call fails with `e`: the deletes all succeed as no-ops and
`e` is returned as the cycle error. -/
lemma runDeleteAbsentFault (u : Revision) (ns : String) (e : KErr) :
    deleteK8SResources u ns (faultyWorld (freshStore u) [none, none, none, none, none, some e]) =
      (some e,
       ⟨⟨[],
        [((u.ns, u.name), u)], [((u.ns, u.name), u)]⟩, [],
       [.getChild .deployment ns (GetRevisionDeploymentName u),
        .getChild .autoscaler ns (GetRevisionAutoscalerName u),
        .getChild .configmap ns (GetRevisionNginxConfigMapName u),
        .deleteChild .service ns (GetElaK8SServiceNameForRevision u) true,
        .getRevision u.ns u.name,
        .updateRevision u.ns { u with status := { conditions := [{ type := "Ready", status := "False", reason := "Inactive" }], serviceName := u.status.serviceName } }]⟩) := by
  have d1 : deleteDeployment u ns (faultyWorld (freshStore u) [none, none, none, none, none, some e]) =
      (none,
       ⟨⟨[],
        [((u.ns, u.name), u)], [((u.ns, u.name), u)]⟩, [none, none, none, none, some e],
       [.getChild .deployment ns (GetRevisionDeploymentName u)]⟩) := rfl
  have d2 : deleteAutoscaler u ns
      ⟨⟨[],
        [((u.ns, u.name), u)], [((u.ns, u.name), u)]⟩, [none, none, none, none, some e],
       [.getChild .deployment ns (GetRevisionDeploymentName u)]⟩ =
      (none,
       ⟨⟨[],
        [((u.ns, u.name), u)], [((u.ns, u.name), u)]⟩, [none, none, none, some e],
       [.getChild .deployment ns (GetRevisionDeploymentName u),
        .getChild .autoscaler ns (GetRevisionAutoscalerName u)]⟩) := rfl
  have d3 : deleteNginxConfig u ns
      ⟨⟨[],
        [((u.ns, u.name), u)], [((u.ns, u.name), u)]⟩, [none, none, none, some e],
       [.getChild .deployment ns (GetRevisionDeploymentName u),
        .getChild .autoscaler ns (GetRevisionAutoscalerName u)]⟩ =
      (none,
       ⟨⟨[],
        [((u.ns, u.name), u)], [((u.ns, u.name), u)]⟩, [none, none, some e],
       [.getChild .deployment ns (GetRevisionDeploymentName u),
        .getChild .autoscaler ns (GetRevisionAutoscalerName u),
        .getChild .configmap ns (GetRevisionNginxConfigMapName u)]⟩) := rfl
  have d4 : deleteService u ns
      ⟨⟨[],
        [((u.ns, u.name), u)], [((u.ns, u.name), u)]⟩, [none, none, some e],
       [.getChild .deployment ns (GetRevisionDeploymentName u),
        .getChild .autoscaler ns (GetRevisionAutoscalerName u),
        .getChild .configmap ns (GetRevisionNginxConfigMapName u)]⟩ =
      (none,
       ⟨⟨[],
        [((u.ns, u.name), u)], [((u.ns, u.name), u)]⟩, [none, some e],
       [.getChild .deployment ns (GetRevisionDeploymentName u),
        .getChild .autoscaler ns (GetRevisionAutoscalerName u),
        .getChild .configmap ns (GetRevisionNginxConfigMapName u),
        .deleteChild .service ns (GetElaK8SServiceNameForRevision u) true]⟩) := rfl
  have h5 : updateStatus
      { u with status := { conditions := [{ type := "Ready", status := "False", reason := "Inactive" }], serviceName := u.status.serviceName } }
      ⟨⟨[],
        [((u.ns, u.name), u)], [((u.ns, u.name), u)]⟩, [none, some e],
       [.getChild .deployment ns (GetRevisionDeploymentName u),
        .getChild .autoscaler ns (GetRevisionAutoscalerName u),
        .getChild .configmap ns (GetRevisionNginxConfigMapName u),
        .deleteChild .service ns (GetElaK8SServiceNameForRevision u) true]⟩ =
      ((none, some e),
       ⟨⟨[],
        [((u.ns, u.name), u)], [((u.ns, u.name), u)]⟩, [],
       [.getChild .deployment ns (GetRevisionDeploymentName u),
        .getChild .autoscaler ns (GetRevisionAutoscalerName u),
        .getChild .configmap ns (GetRevisionNginxConfigMapName u),
        .deleteChild .service ns (GetElaK8SServiceNameForRevision u) true,
        .getRevision u.ns u.name,
        .updateRevision u.ns { u with status := { conditions := [{ type := "Ready", status := "False", reason := "Inactive" }], serviceName := u.status.serviceName } }]⟩) := by
    simp [updateStatus, World.call, Store.apply, lookupRev, setRev]
  simp [deleteK8SResources, d1, d2, d3, d4, h5]

/-- Execution of the delete path when all four children exist: each is
fetched (except the service) and deleted with foreground propagation, the
store ends with no children, and the status updater stores the Inactive
condition. -/
lemma runDeletePresent (u : Revision) (ns : String) :
    deleteK8SResources u ns (cleanWorld (allChildrenStore u ns)) =
      (none,
       ⟨⟨[],
        [((u.ns, u.name), { u with status := { conditions := [{ type := "Ready", status := "False", reason := "Inactive" }], serviceName := u.status.serviceName } })], [((u.ns, u.name), u)]⟩, [],
       [.getChild .deployment ns (GetRevisionDeploymentName u),
        .deleteChild .deployment ns (GetRevisionDeploymentName u) true,
        .getChild .autoscaler ns (GetRevisionAutoscalerName u),
        .deleteChild .autoscaler ns (GetRevisionAutoscalerName u) true,
        .getChild .configmap ns (GetRevisionNginxConfigMapName u),
        .deleteChild .configmap ns (GetRevisionNginxConfigMapName u) true,
        .deleteChild .service ns (GetElaK8SServiceNameForRevision u) true,
        .getRevision u.ns u.name,
        .updateRevision u.ns { u with status := { conditions := [{ type := "Ready", status := "False", reason := "Inactive" }], serviceName := u.status.serviceName } }]⟩) := by
  have d1 : deleteDeployment u ns (cleanWorld (allChildrenStore u ns)) =
      (none,
       ⟨⟨[(.autoscaler, ns, (GetRevisionAutoscalerName u)),
         (.configmap, ns, (GetRevisionNginxConfigMapName u)),
         (.service, ns, (GetElaK8SServiceNameForRevision u))],
        [((u.ns, u.name), u)], [((u.ns, u.name), u)]⟩, [],
       [.getChild .deployment ns (GetRevisionDeploymentName u),
        .deleteChild .deployment ns (GetRevisionDeploymentName u) true]⟩) := by
    simp [deleteDeployment, deleteAutoscaler, deleteNginxConfig, deleteService,
      World.call, Store.apply, removeChild, cleanWorld, allChildrenStore]
  have d2 : deleteAutoscaler u ns
      ⟨⟨[(.autoscaler, ns, (GetRevisionAutoscalerName u)),
         (.configmap, ns, (GetRevisionNginxConfigMapName u)),
         (.service, ns, (GetElaK8SServiceNameForRevision u))],
        [((u.ns, u.name), u)], [((u.ns, u.name), u)]⟩, [],
       [.getChild .deployment ns (GetRevisionDeploymentName u),
        .deleteChild .deployment ns (GetRevisionDeploymentName u) true]⟩ =
      (none,
       ⟨⟨[(.configmap, ns, (GetRevisionNginxConfigMapName u)),
         (.service, ns, (GetElaK8SServiceNameForRevision u))],
        [((u.ns, u.name), u)], [((u.ns, u.name), u)]⟩, [],
       [.getChild .deployment ns (GetRevisionDeploymentName u),
        .deleteChild .deployment ns (GetRevisionDeploymentName u) true,
        .getChild .autoscaler ns (GetRevisionAutoscalerName u),
        .deleteChild .autoscaler ns (GetRevisionAutoscalerName u) true]⟩) := by
    simp [deleteDeployment, deleteAutoscaler, deleteNginxConfig, deleteService,
      World.call, Store.apply, removeChild, cleanWorld, allChildrenStore]
  have d3 : deleteNginxConfig u ns
      ⟨⟨[(.configmap, ns, (GetRevisionNginxConfigMapName u)),
         (.service, ns, (GetElaK8SServiceNameForRevision u))],
        [((u.ns, u.name), u)], [((u.ns, u.name), u)]⟩, [],
       [.getChild .deployment ns (GetRevisionDeploymentName u),
        .deleteChild .deployment ns (GetRevisionDeploymentName u) true,
        .getChild .autoscaler ns (GetRevisionAutoscalerName u),
        .deleteChild .autoscaler ns (GetRevisionAutoscalerName u) true]⟩ =
      (none,
       ⟨⟨[(.service, ns, (GetElaK8SServiceNameForRevision u))],
        [((u.ns, u.name), u)], [((u.ns, u.name), u)]⟩, [],
       [.getChild .deployment ns (GetRevisionDeploymentName u),
        .deleteChild .deployment ns (GetRevisionDeploymentName u) true,
        .getChild .autoscaler ns (GetRevisionAutoscalerName u),
        .deleteChild .autoscaler ns (GetRevisionAutoscalerName u) true,
        .getChild .configmap ns (GetRevisionNginxConfigMapName u),
        .deleteChild .configmap ns (GetRevisionNginxConfigMapName u) true]⟩) := by
    simp [deleteDeployment, deleteAutoscaler, deleteNginxConfig, deleteService,
      World.call, Store.apply, removeChild, cleanWorld, allChildrenStore]
  have d4 : deleteService u ns
      ⟨⟨[(.service, ns, (GetElaK8SServiceNameForRevision u))],
        [((u.ns, u.name), u)], [((u.ns, u.name), u)]⟩, [],
       [.getChild .deployment ns (GetRevisionDeploymentName u),
        .deleteChild .deployment ns (GetRevisionDeploymentName u) true,
        .getChild .autoscaler ns (GetRevisionAutoscalerName u),
        .deleteChild .autoscaler ns (GetRevisionAutoscalerName u) true,
        .getChild .configmap ns (GetRevisionNginxConfigMapName u),
        .deleteChild .configmap ns (GetRevisionNginxConfigMapName u) true]⟩ =
      (none,
       ⟨⟨[],
        [((u.ns, u.name), u)], [((u.ns, u.name), u)]⟩, [],
       [.getChild .deployment ns (GetRevisionDeploymentName u),
        .deleteChild .deployment ns (GetRevisionDeploymentName u) true,
        .getChild .autoscaler ns (GetRevisionAutoscalerName u),
        .deleteChild .autoscaler ns (GetRevisionAutoscalerName u) true,
        .getChild .configmap ns (GetRevisionNginxConfigMapName u),
        .deleteChild .configmap ns (GetRevisionNginxConfigMapName u) true,
        .deleteChild .service ns (GetElaK8SServiceNameForRevision u) true]⟩) := by
    simp [deleteDeployment, deleteAutoscaler, deleteNginxConfig, deleteService,
      World.call, Store.apply, removeChild, cleanWorld, allChildrenStore]
  have h5 : updateStatus
      { u with status := { conditions := [{ type := "Ready", status := "False", reason := "Inactive" }], serviceName := u.status.serviceName } }
      ⟨⟨[],
        [((u.ns, u.name), u)], [((u.ns, u.name), u)]⟩, [],
       [.getChild .deployment ns (GetRevisionDeploymentName u),
        .deleteChild .deployment ns (GetRevisionDeploymentName u) true,
        .getChild .autoscaler ns (GetRevisionAutoscalerName u),
        .deleteChild .autoscaler ns (GetRevisionAutoscalerName u) true,
        .getChild .configmap ns (GetRevisionNginxConfigMapName u),
        .deleteChild .configmap ns (GetRevisionNginxConfigMapName u) true,
        .deleteChild .service ns (GetElaK8SServiceNameForRevision u) true]⟩ =
      ((some { u with status := { conditions := [{ type := "Ready", status := "False", reason := "Inactive" }], serviceName := u.status.serviceName } }, none),
       ⟨⟨[],
        [((u.ns, u.name), { u with status := { conditions := [{ type := "Ready", status := "False", reason := "Inactive" }], serviceName := u.status.serviceName } })], [((u.ns, u.name), u)]⟩, [],
       [.getChild .deployment ns (GetRevisionDeploymentName u),
        .deleteChild .deployment ns (GetRevisionDeploymentName u) true,
        .getChild .autoscaler ns (GetRevisionAutoscalerName u),
        .deleteChild .autoscaler ns (GetRevisionAutoscalerName u) true,
        .getChild .configmap ns (GetRevisionNginxConfigMapName u),
        .deleteChild .configmap ns (GetRevisionNginxConfigMapName u) true,
        .deleteChild .service ns (GetElaK8SServiceNameForRevision u) true,
        .getRevision u.ns u.name,
        .updateRevision u.ns { u with status := { conditions := [{ type := "Ready", status := "False", reason := "Inactive" }], serviceName := u.status.serviceName } }]⟩) := by
    simp [updateStatus, World.call, Store.apply, lookupRev, setRev]
  simp [deleteK8SResources, d1, d2, d3, d4, h5]

/-- Execution of the delete path when all four children exist and every
delete call fails with an injected non-not-found error: every error is
discarded, every subsequent operation is still attempted, the status
update still runs and the cycle returns success. -/
lemma runDeletePresentFault (u : Revision) (ns : String) (e1 e2 e3 e4 : KErr)
    (he1 : e1 ≠ KErr.notFound) (he2 : e2 ≠ KErr.notFound)
    (he3 : e3 ≠ KErr.notFound) (he4 : e4 ≠ KErr.notFound) :
    deleteK8SResources u ns (faultyWorld (allChildrenStore u ns)
      [none, some e1, none, some e2, none, some e3, some e4]) =
      (none,
       ⟨⟨[(.deployment, ns, (GetRevisionDeploymentName u)),
         (.autoscaler, ns, (GetRevisionAutoscalerName u)),
         (.configmap, ns, (GetRevisionNginxConfigMapName u)),
         (.service, ns, (GetElaK8SServiceNameForRevision u))],
        [((u.ns, u.name), { u with status := { conditions := [{ type := "Ready", status := "False", reason := "Inactive" }], serviceName := u.status.serviceName } })], [((u.ns, u.name), u)]⟩, [],
       [.getChild .deployment ns (GetRevisionDeploymentName u),
        .deleteChild .deployment ns (GetRevisionDeploymentName u) true,
        .getChild .autoscaler ns (GetRevisionAutoscalerName u),
        .deleteChild .autoscaler ns (GetRevisionAutoscalerName u) true,
        .getChild .configmap ns (GetRevisionNginxConfigMapName u),
        .deleteChild .configmap ns (GetRevisionNginxConfigMapName u) true,
        .deleteChild .service ns (GetElaK8SServiceNameForRevision u) true,
        .getRevision u.ns u.name,
        .updateRevision u.ns { u with status := { conditions := [{ type := "Ready", status := "False", reason := "Inactive" }], serviceName := u.status.serviceName } }]⟩) := by
  have d1 : deleteDeployment u ns (faultyWorld (allChildrenStore u ns)
      [none, some e1, none, some e2, none, some e3, some e4]) =
      (some e1,
       ⟨⟨[(.deployment, ns, (GetRevisionDeploymentName u)),
         (.autoscaler, ns, (GetRevisionAutoscalerName u)),
         (.configmap, ns, (GetRevisionNginxConfigMapName u)),
         (.service, ns, (GetElaK8SServiceNameForRevision u))],
        [((u.ns, u.name), u)], [((u.ns, u.name), u)]⟩, [none, some e2, none, some e3, some e4],
       [.getChild .deployment ns (GetRevisionDeploymentName u),
        .deleteChild .deployment ns (GetRevisionDeploymentName u) true]⟩) := by
    cases e1 <;>
      simp_all [deleteDeployment, World.call, Store.apply, faultyWorld, allChildrenStore]
  have d2 : deleteAutoscaler u ns
      ⟨⟨[(.deployment, ns, (GetRevisionDeploymentName u)),
         (.autoscaler, ns, (GetRevisionAutoscalerName u)),
         (.configmap, ns, (GetRevisionNginxConfigMapName u)),
         (.service, ns, (GetElaK8SServiceNameForRevision u))],
        [((u.ns, u.name), u)], [((u.ns, u.name), u)]⟩, [none, some e2, none, some e3, some e4],
       [.getChild .deployment ns (GetRevisionDeploymentName u),
        .deleteChild .deployment ns (GetRevisionDeploymentName u) true]⟩ =
      (some e2,
       ⟨⟨[(.deployment, ns, (GetRevisionDeploymentName u)),
         (.autoscaler, ns, (GetRevisionAutoscalerName u)),
         (.configmap, ns, (GetRevisionNginxConfigMapName u)),
         (.service, ns, (GetElaK8SServiceNameForRevision u))],
        [((u.ns, u.name), u)], [((u.ns, u.name), u)]⟩, [none, some e3, some e4],
       [.getChild .deployment ns (GetRevisionDeploymentName u),
        .deleteChild .deployment ns (GetRevisionDeploymentName u) true,
        .getChild .autoscaler ns (GetRevisionAutoscalerName u),
        .deleteChild .autoscaler ns (GetRevisionAutoscalerName u) true]⟩) := by
    cases e2 <;>
      simp_all [deleteAutoscaler, World.call, Store.apply]
  have d3 : deleteNginxConfig u ns
      ⟨⟨[(.deployment, ns, (GetRevisionDeploymentName u)),
         (.autoscaler, ns, (GetRevisionAutoscalerName u)),
         (.configmap, ns, (GetRevisionNginxConfigMapName u)),
         (.service, ns, (GetElaK8SServiceNameForRevision u))],
        [((u.ns, u.name), u)], [((u.ns, u.name), u)]⟩, [none, some e3, some e4],
       [.getChild .deployment ns (GetRevisionDeploymentName u),
        .deleteChild .deployment ns (GetRevisionDeploymentName u) true,
        .getChild .autoscaler ns (GetRevisionAutoscalerName u),
        .deleteChild .autoscaler ns (GetRevisionAutoscalerName u) true]⟩ =
      (some e3,
       ⟨⟨[(.deployment, ns, (GetRevisionDeploymentName u)),
         (.autoscaler, ns, (GetRevisionAutoscalerName u)),
         (.configmap, ns, (GetRevisionNginxConfigMapName u)),
         (.service, ns, (GetElaK8SServiceNameForRevision u))],
        [((u.ns, u.name), u)], [((u.ns, u.name), u)]⟩, [some e4],
       [.getChild .deployment ns (GetRevisionDeploymentName u),
        .deleteChild .deployment ns (GetRevisionDeploymentName u) true,
        .getChild .autoscaler ns (GetRevisionAutoscalerName u),
        .deleteChild .autoscaler ns (GetRevisionAutoscalerName u) true,
        .getChild .configmap ns (GetRevisionNginxConfigMapName u),
        .deleteChild .configmap ns (GetRevisionNginxConfigMapName u) true]⟩) := by
    cases e3 <;>
      simp_all [deleteNginxConfig, World.call, Store.apply]
  have d4 : deleteService u ns
      ⟨⟨[(.deployment, ns, (GetRevisionDeploymentName u)),
         (.autoscaler, ns, (GetRevisionAutoscalerName u)),
         (.configmap, ns, (GetRevisionNginxConfigMapName u)),
         (.service, ns, (GetElaK8SServiceNameForRevision u))],
        [((u.ns, u.name), u)], [((u.ns, u.name), u)]⟩, [some e4],
       [.getChild .deployment ns (GetRevisionDeploymentName u),
        .deleteChild .deployment ns (GetRevisionDeploymentName u) true,
        .getChild .autoscaler ns (GetRevisionAutoscalerName u),
        .deleteChild .autoscaler ns (GetRevisionAutoscalerName u) true,
        .getChild .configmap ns (GetRevisionNginxConfigMapName u),
        .deleteChild .configmap ns (GetRevisionNginxConfigMapName u) true]⟩ =
      (some e4,
       ⟨⟨[(.deployment, ns, (GetRevisionDeploymentName u)),
         (.autoscaler, ns, (GetRevisionAutoscalerName u)),
         (.configmap, ns, (GetRevisionNginxConfigMapName u)),
         (.service, ns, (GetElaK8SServiceNameForRevision u))],
        [((u.ns, u.name), u)], [((u.ns, u.name), u)]⟩, [],
       [.getChild .deployment ns (GetRevisionDeploymentName u),
        .deleteChild .deployment ns (GetRevisionDeploymentName u) true,
        .getChild .autoscaler ns (GetRevisionAutoscalerName u),
        .deleteChild .autoscaler ns (GetRevisionAutoscalerName u) true,
        .getChild .configmap ns (GetRevisionNginxConfigMapName u),
        .deleteChild .configmap ns (GetRevisionNginxConfigMapName u) true,
        .deleteChild .service ns (GetElaK8SServiceNameForRevision u) true]⟩) := by
    cases e4 <;>
      simp_all [deleteService, World.call, Store.apply]
  have h5 : updateStatus
      { u with status := { conditions := [{ type := "Ready", status := "False", reason := "Inactive" }], serviceName := u.status.serviceName } }
      ⟨⟨[(.deployment, ns, (GetRevisionDeploymentName u)),
         (.autoscaler, ns, (GetRevisionAutoscalerName u)),
         (.configmap, ns, (GetRevisionNginxConfigMapName u)),
         (.service, ns, (GetElaK8SServiceNameForRevision u))],
        [((u.ns, u.name), u)], [((u.ns, u.name), u)]⟩, [],
       [.getChild .deployment ns (GetRevisionDeploymentName u),
        .deleteChild .deployment ns (GetRevisionDeploymentName u) true,
        .getChild .autoscaler ns (GetRevisionAutoscalerName u),
        .deleteChild .autoscaler ns (GetRevisionAutoscalerName u) true,
        .getChild .configmap ns (GetRevisionNginxConfigMapName u),
        .deleteChild .configmap ns (GetRevisionNginxConfigMapName u) true,
        .deleteChild .service ns (GetElaK8SServiceNameForRevision u) true]⟩ =
      ((some { u with status := { conditions := [{ type := "Ready", status := "False", reason := "Inactive" }], serviceName := u.status.serviceName } }, none),
       ⟨⟨[(.deployment, ns, (GetRevisionDeploymentName u)),
         (.autoscaler, ns, (GetRevisionAutoscalerName u)),
         (.configmap, ns, (GetRevisionNginxConfigMapName u)),
         (.service, ns, (GetElaK8SServiceNameForRevision u))],
        [((u.ns, u.name), { u with status := { conditions := [{ type := "Ready", status := "False", reason := "Inactive" }], serviceName := u.status.serviceName } })], [((u.ns, u.name), u)]⟩, [],
       [.getChild .deployment ns (GetRevisionDeploymentName u),
        .deleteChild .deployment ns (GetRevisionDeploymentName u) true,
        .getChild .autoscaler ns (GetRevisionAutoscalerName u),
        .deleteChild .autoscaler ns (GetRevisionAutoscalerName u) true,
        .getChild .configmap ns (GetRevisionNginxConfigMapName u),
        .deleteChild .configmap ns (GetRevisionNginxConfigMapName u) true,
        .deleteChild .service ns (GetElaK8SServiceNameForRevision u) true,
        .getRevision u.ns u.name,
        .updateRevision u.ns { u with status := { conditions := [{ type := "Ready", status := "False", reason := "Inactive" }], serviceName := u.status.serviceName } }]⟩) := by
    simp [updateStatus, World.call, Store.apply, lookupRev, setRev]
  simp [deleteK8SResources, d1, d2, d3, d4, h5]

/-- Execution of the create path when the deployment already exists but the
autoscaler, configmap and service operations each fail with an injected
non-not-found error: the secondary errors are discarded, every remaining
operation is attempted, the cycle proceeds to the status update, and the
cycle result is the status updater outcome (success). -/
lemma runCreateSecondaryFault (u : Revision) (ns : String) (e2 e3 e4 : KErr)
    (he2 : e2 ≠ KErr.notFound) (he3 : e3 ≠ KErr.notFound) (he4 : e4 ≠ KErr.notFound) :
    createK8SResources u ns (faultyWorld (allChildrenStore u ns)
      [none, some e2, some e3, some e4]) =
      (none,
       ⟨⟨[(.deployment, ns, (GetRevisionDeploymentName u)),
         (.autoscaler, ns, (GetRevisionAutoscalerName u)),
         (.configmap, ns, (GetRevisionNginxConfigMapName u)),
         (.service, ns, (GetElaK8SServiceNameForRevision u))],
        [((u.ns, u.name), { u with status := { conditions := [{ type := "Ready", status := "False", reason := "Deploying" }], serviceName := u.status.serviceName } })], [((u.ns, u.name), u)]⟩, [],
       [.getChild .deployment ns (GetRevisionDeploymentName u),
        .getChild .autoscaler ns (GetRevisionAutoscalerName u),
        .getChild .configmap ns (GetRevisionNginxConfigMapName u),
        .getChild .service ns (GetElaK8SServiceNameForRevision u),
        .getRevision u.ns u.name,
        .updateRevision u.ns { u with status := { conditions := [{ type := "Ready", status := "False", reason := "Deploying" }], serviceName := u.status.serviceName } }]⟩) := by
  have h1 : reconcileDeployment u ns (faultyWorld (allChildrenStore u ns)
      [none, some e2, some e3, some e4]) =
      (none,
       ⟨⟨[(.deployment, ns, (GetRevisionDeploymentName u)),
         (.autoscaler, ns, (GetRevisionAutoscalerName u)),
         (.configmap, ns, (GetRevisionNginxConfigMapName u)),
         (.service, ns, (GetElaK8SServiceNameForRevision u))],
        [((u.ns, u.name), u)], [((u.ns, u.name), u)]⟩, [some e2, some e3, some e4],
       [.getChild .deployment ns (GetRevisionDeploymentName u)]⟩) := by
    simp [reconcileDeployment, World.call, Store.apply, faultyWorld, allChildrenStore]
  have h2 : reconcileAutoscaler u ns
      ⟨⟨[(.deployment, ns, (GetRevisionDeploymentName u)),
         (.autoscaler, ns, (GetRevisionAutoscalerName u)),
         (.configmap, ns, (GetRevisionNginxConfigMapName u)),
         (.service, ns, (GetElaK8SServiceNameForRevision u))],
        [((u.ns, u.name), u)], [((u.ns, u.name), u)]⟩, [some e2, some e3, some e4],
       [.getChild .deployment ns (GetRevisionDeploymentName u)]⟩ =
      (some e2,
       ⟨⟨[(.deployment, ns, (GetRevisionDeploymentName u)),
         (.autoscaler, ns, (GetRevisionAutoscalerName u)),
         (.configmap, ns, (GetRevisionNginxConfigMapName u)),
         (.service, ns, (GetElaK8SServiceNameForRevision u))],
        [((u.ns, u.name), u)], [((u.ns, u.name), u)]⟩, [some e3, some e4],
       [.getChild .deployment ns (GetRevisionDeploymentName u),
        .getChild .autoscaler ns (GetRevisionAutoscalerName u)]⟩) := by
    cases e2 <;>
      simp_all [reconcileAutoscaler, World.call, Store.apply]
  have h3 : reconcileNginxConfig u ns
      ⟨⟨[(.deployment, ns, (GetRevisionDeploymentName u)),
         (.autoscaler, ns, (GetRevisionAutoscalerName u)),
         (.configmap, ns, (GetRevisionNginxConfigMapName u)),
         (.service, ns, (GetElaK8SServiceNameForRevision u))],
        [((u.ns, u.name), u)], [((u.ns, u.name), u)]⟩, [some e3, some e4],
       [.getChild .deployment ns (GetRevisionDeploymentName u),
        .getChild .autoscaler ns (GetRevisionAutoscalerName u)]⟩ =
      (some e3,
       ⟨⟨[(.deployment, ns, (GetRevisionDeploymentName u)),
         (.autoscaler, ns, (GetRevisionAutoscalerName u)),
         (.configmap, ns, (GetRevisionNginxConfigMapName u)),
         (.service, ns, (GetElaK8SServiceNameForRevision u))],
        [((u.ns, u.name), u)], [((u.ns, u.name), u)]⟩, [some e4],
       [.getChild .deployment ns (GetRevisionDeploymentName u),
        .getChild .autoscaler ns (GetRevisionAutoscalerName u),
        .getChild .configmap ns (GetRevisionNginxConfigMapName u)]⟩) := by
    cases e3 <;>
      simp_all [reconcileNginxConfig, World.call, Store.apply]
  have h4 : reconcileService u ns
      ⟨⟨[(.deployment, ns, (GetRevisionDeploymentName u)),
         (.autoscaler, ns, (GetRevisionAutoscalerName u)),
         (.configmap, ns, (GetRevisionNginxConfigMapName u)),
         (.service, ns, (GetElaK8SServiceNameForRevision u))],
        [((u.ns, u.name), u)], [((u.ns, u.name), u)]⟩, [some e4],
       [.getChild .deployment ns (GetRevisionDeploymentName u),
        .getChild .autoscaler ns (GetRevisionAutoscalerName u),
        .getChild .configmap ns (GetRevisionNginxConfigMapName u)]⟩ =
      (("", some e4),
       ⟨⟨[(.deployment, ns, (GetRevisionDeploymentName u)),
         (.autoscaler, ns, (GetRevisionAutoscalerName u)),
         (.configmap, ns, (GetRevisionNginxConfigMapName u)),
         (.service, ns, (GetElaK8SServiceNameForRevision u))],
        [((u.ns, u.name), u)], [((u.ns, u.name), u)]⟩, [],
       [.getChild .deployment ns (GetRevisionDeploymentName u),
        .getChild .autoscaler ns (GetRevisionAutoscalerName u),
        .getChild .configmap ns (GetRevisionNginxConfigMapName u),
        .getChild .service ns (GetElaK8SServiceNameForRevision u)]⟩) := by
    cases e4 <;>
      simp_all [reconcileService, World.call, Store.apply]
  have h5 : updateStatus
      { u with status := { conditions := [{ type := "Ready", status := "False", reason := "Deploying" }], serviceName := u.status.serviceName } }
      ⟨⟨[(.deployment, ns, (GetRevisionDeploymentName u)),
         (.autoscaler, ns, (GetRevisionAutoscalerName u)),
         (.configmap, ns, (GetRevisionNginxConfigMapName u)),
         (.service, ns, (GetElaK8SServiceNameForRevision u))],
        [((u.ns, u.name), u)], [((u.ns, u.name), u)]⟩, [],
       [.getChild .deployment ns (GetRevisionDeploymentName u),
        .getChild .autoscaler ns (GetRevisionAutoscalerName u),
        .getChild .configmap ns (GetRevisionNginxConfigMapName u),
        .getChild .service ns (GetElaK8SServiceNameForRevision u)]⟩ =
      ((some { u with status := { conditions := [{ type := "Ready", status := "False", reason := "Deploying" }], serviceName := u.status.serviceName } }, none),
       ⟨⟨[(.deployment, ns, (GetRevisionDeploymentName u)),
         (.autoscaler, ns, (GetRevisionAutoscalerName u)),
         (.configmap, ns, (GetRevisionNginxConfigMapName u)),
         (.service, ns, (GetElaK8SServiceNameForRevision u))],
        [((u.ns, u.name), { u with status := { conditions := [{ type := "Ready", status := "False", reason := "Deploying" }], serviceName := u.status.serviceName } })], [((u.ns, u.name), u)]⟩, [],
       [.getChild .deployment ns (GetRevisionDeploymentName u),
        .getChild .autoscaler ns (GetRevisionAutoscalerName u),
        .getChild .configmap ns (GetRevisionNginxConfigMapName u),
        .getChild .service ns (GetElaK8SServiceNameForRevision u),
        .getRevision u.ns u.name,
        .updateRevision u.ns { u with status := { conditions := [{ type := "Ready", status := "False", reason := "Deploying" }], serviceName := u.status.serviceName } }]⟩) := by
    simp [updateStatus, World.call, Store.apply, lookupRev, setRev]
  simp [createK8SResources, h1, h2, h3, h4, h5]

/-- Execution of the create path when the very first API call of the
deployment reconcile fails with a non-not-found error `e`: the cycle
aborts after that single call, no other operation is attempted, and `e`
is returned as the cycle error. -/
lemma runCreateAbort (u : Revision) (ns : String) (s : Store)
    (fs : List (Option KErr)) (e : KErr) (he : e ≠ KErr.notFound) :
    createK8SResources u ns ⟨s, some e :: fs, []⟩ =
      (some e, ⟨s, fs, [.getChild .deployment ns (GetRevisionDeploymentName u)]⟩) := by
  cases e <;>
    simp_all [createK8SResources, reconcileDeployment, World.call]

/-- C2: for a Revision with no deletion marker and no existing children, the
create path creates deployment, autoscaler, configmap and service in that
order (with the extra Pod the source also creates), records the derived
service name and exactly the condition `Ready=False, Reason=Deploying` on the
stored Revision via the status updater, returns success, and returns the
status updater's error when that final update fails. -/
theorem c2_create_path_fresh (u : Revision) (ns0 : String) (e : KErr)
    (h : u.deletionTimestamp = none) :
    (reconcileWithImage u ns0 (cleanWorld (freshStore u))).1 = none
  ∧ (reconcileWithImage u ns0 (cleanWorld (freshStore u))).2.trace =
      [ .getChild .deployment (GetElaNamespaceName u.ns) (GetRevisionDeploymentName u),
        .createChild .pod (GetElaNamespaceName u.ns) (GetRevisionPodName u) true,
        .createChild .deployment (GetElaNamespaceName u.ns) (GetRevisionDeploymentName u) true,
        .getChild .autoscaler (GetElaNamespaceName u.ns) (GetRevisionAutoscalerName u),
        .createChild .autoscaler (GetElaNamespaceName u.ns) (GetRevisionAutoscalerName u) true,
        .getChild .configmap (GetElaNamespaceName u.ns) (GetRevisionNginxConfigMapName u),
        .createChild .configmap (GetElaNamespaceName u.ns) (GetRevisionNginxConfigMapName u) true,
        .getChild .service (GetElaNamespaceName u.ns) (GetElaK8SServiceNameForRevision u),
        .createChild .service (GetElaNamespaceName u.ns) (GetElaK8SServiceNameForRevision u) true,
        .getRevision u.ns u.name,
        .updateRevision u.ns { u with status :=
          { conditions := [{ type := "Ready", status := "False", reason := "Deploying" }],
            serviceName := GetElaK8SServiceNameForRevision u } } ]
  ∧ (reconcileWithImage u ns0 (cleanWorld (freshStore u))).2.store.revisions =
      [((u.ns, u.name), { u with status :=
          { conditions := [{ type := "Ready", status := "False", reason := "Deploying" }],
            serviceName := GetElaK8SServiceNameForRevision u } })]
  ∧ (reconcileWithImage u ns0 (faultyWorld (freshStore u)
        [none, none, none, none, none, none, none, none, none, none, some e])).1 = some e := by
  refine ⟨?_, ?_, ?_, ?_⟩ <;>
    simp [reconcileWithImage, h, runCreateFresh, runCreateFreshFault]

/-- Witness for C2 at the concrete Revision `r1`. -/
theorem c2_create_path_fresh_witness :
    r1.deletionTimestamp = none
  ∧ (reconcileWithImage r1 "default" (cleanWorld (freshStore r1))).1 = none :=
  ⟨rfl, (c2_create_path_fresh r1 "default" (KErr.other 3) rfl).1⟩


/-- C1 is falsified on the delete path: with the deployment present and its
delete call failing with `other 7`, the cycle does not abort and does not
return the deployment error — it runs all remaining deletes and the status
update and returns success. -/
theorem c1_counterexample :
    (deleteK8SResources r1del "default-ela"
      (faultyWorld ⟨[(.deployment, "default-ela", GetRevisionDeploymentName r1del)],
        [(("default", "r1"), r1del)], []⟩ [none, some (KErr.other 7)])).1 = none
  ∧ (deleteK8SResources r1del "default-ela"
      (faultyWorld ⟨[(.deployment, "default-ela", GetRevisionDeploymentName r1del)],
        [(("default", "r1"), r1del)], []⟩ [none, some (KErr.other 7)])).2.trace =
      [.getChild .deployment "default-ela" (GetRevisionDeploymentName r1del),
       .deleteChild .deployment "default-ela" (GetRevisionDeploymentName r1del) true,
       .getChild .autoscaler "default-ela" (GetRevisionAutoscalerName r1del),
       .getChild .configmap "default-ela" (GetRevisionNginxConfigMapName r1del),
       .deleteChild .service "default-ela" (GetElaK8SServiceNameForRevision r1del) true,
       .getRevision "default" "r1",
       .updateRevision "default" { r1del with status :=
         { conditions := [{ type := "Ready", status := "False", reason := "Inactive" }],
            serviceName := "" } }] := by
  refine ⟨?_, ?_⟩ <;> decide

/-- C1 amended: on the create path an error from the workload-deployment
reconcile aborts the cycle at once and is returned as the cycle's error,
while autoscaler, configmap and service errors are only logged, all
remaining child operations are attempted and the cycle proceeds to the
status update; on the delete path errors from every child delete — the
deployment's included — are only logged and never returned, all remaining
deletes and the status update being attempted regardless. -/
theorem c1_error_policy (u : Revision) (ns : String) (s : Store)
    (fs : List (Option KErr)) (e1 e2 e3 e4 : KErr)
    (he1 : e1 ≠ KErr.notFound) (he2 : e2 ≠ KErr.notFound)
    (he3 : e3 ≠ KErr.notFound) (he4 : e4 ≠ KErr.notFound) :
    createK8SResources u ns ⟨s, some e1 :: fs, []⟩ =
      (some e1, ⟨s, fs, [.getChild .deployment ns (GetRevisionDeploymentName u)]⟩)
  ∧ (createK8SResources u ns (faultyWorld (allChildrenStore u ns)
      [none, some e2, some e3, some e4])).1 = none
  ∧ (createK8SResources u ns (faultyWorld (allChildrenStore u ns)
      [none, some e2, some e3, some e4])).2.trace =
      [.getChild .deployment ns (GetRevisionDeploymentName u),
       .getChild .autoscaler ns (GetRevisionAutoscalerName u),
       .getChild .configmap ns (GetRevisionNginxConfigMapName u),
       .getChild .service ns (GetElaK8SServiceNameForRevision u),
       .getRevision u.ns u.name,
       .updateRevision u.ns { u with status := { conditions := [{ type := "Ready", status := "False", reason := "Deploying" }], serviceName := u.status.serviceName } }]
  ∧ (deleteK8SResources u ns (faultyWorld (allChildrenStore u ns)
      [none, some e1, none, some e2, none, some e3, some e4])).1 = none
  ∧ (deleteK8SResources u ns (faultyWorld (allChildrenStore u ns)
      [none, some e1, none, some e2, none, some e3, some e4])).2.trace =
      [.getChild .deployment ns (GetRevisionDeploymentName u),
       .deleteChild .deployment ns (GetRevisionDeploymentName u) true,
       .getChild .autoscaler ns (GetRevisionAutoscalerName u),
       .deleteChild .autoscaler ns (GetRevisionAutoscalerName u) true,
       .getChild .configmap ns (GetRevisionNginxConfigMapName u),
       .deleteChild .configmap ns (GetRevisionNginxConfigMapName u) true,
       .deleteChild .service ns (GetElaK8SServiceNameForRevision u) true,
       .getRevision u.ns u.name,
       .updateRevision u.ns { u with status := { conditions := [{ type := "Ready", status := "False", reason := "Inactive" }], serviceName := u.status.serviceName } }] := by
  refine ⟨runCreateAbort u ns s fs e1 he1, ?_, ?_, ?_, ?_⟩ <;>
    simp [runCreateSecondaryFault u ns e2 e3 e4 he2 he3 he4,
      runDeletePresentFault u ns e1 e2 e3 e4 he1 he2 he3 he4]

/-- Witness for C1 amended at concrete inputs. -/
theorem c1_error_policy_witness :
    (KErr.other 1 ≠ KErr.notFound)
  ∧ createK8SResources r1 "n" ⟨freshStore r1, [some (KErr.other 1)], []⟩ =
      (some (KErr.other 1),
       ⟨freshStore r1, [], [.getChild .deployment "n" (GetRevisionDeploymentName r1)]⟩) :=
  ⟨by decide, (c1_error_policy r1 "n" (freshStore r1) [] (KErr.other 1) (KErr.other 2)
    (KErr.other 3) (KErr.other 4) (by decide) (by decide) (by decide) (by decide)).1⟩

/-- C3 is falsified: the create path on a fresh store also creates a Pod,
which is not one of the four child resources. -/
theorem c3_counterexample :
    (ApiCall.createChild .pod "default-ela" (GetRevisionPodName r1) true) ∈
      (createK8SResources r1 "default-ela" (cleanWorld (freshStore r1))).2.trace
  ∧ Kind.pod ∉ [Kind.deployment, Kind.autoscaler, Kind.configmap, Kind.service] := by
  refine ⟨?_, ?_⟩ <;> decide

/-- C3 amended: on the create path each absent child resource is brought
into existence by exactly one create call, but in addition to the four
children a Pod is created alongside a fresh deployment; no further objects
are created. -/
theorem c3_creates_each_child_once (u : Revision) (ns : String) :
    createCalls ((createK8SResources u ns (cleanWorld (freshStore u))).2.trace) =
      [.createChild .pod ns (GetRevisionPodName u) true,
       .createChild .deployment ns (GetRevisionDeploymentName u) true,
       .createChild .autoscaler ns (GetRevisionAutoscalerName u) true,
       .createChild .configmap ns (GetRevisionNginxConfigMapName u) true,
       .createChild .service ns (GetElaK8SServiceNameForRevision u) true]
  ∧ countChild .deployment (createK8SResources u ns (cleanWorld (freshStore u))).2.store = 1
  ∧ countChild .autoscaler (createK8SResources u ns (cleanWorld (freshStore u))).2.store = 1
  ∧ countChild .configmap (createK8SResources u ns (cleanWorld (freshStore u))).2.store = 1
  ∧ countChild .service (createK8SResources u ns (cleanWorld (freshStore u))).2.store = 1
  ∧ (Kind.deployment, ns, GetRevisionDeploymentName u) ∈
      (createK8SResources u ns (cleanWorld (freshStore u))).2.store.children
  ∧ (Kind.autoscaler, ns, GetRevisionAutoscalerName u) ∈
      (createK8SResources u ns (cleanWorld (freshStore u))).2.store.children
  ∧ (Kind.configmap, ns, GetRevisionNginxConfigMapName u) ∈
      (createK8SResources u ns (cleanWorld (freshStore u))).2.store.children
  ∧ (Kind.service, ns, GetElaK8SServiceNameForRevision u) ∈
      (createK8SResources u ns (cleanWorld (freshStore u))).2.store.children := by
  refine ⟨?_, ?_, ?_, ?_, ?_, ?_, ?_, ?_, ?_⟩ <;>
    simp [runCreateFresh, createCalls, countChild]

/-- C4: for a Revision with the deletion marker set, the delete path invokes
the four deletes in order (tolerating absence as success), sets the stored
status conditions to exactly `Ready=False, Reason=Inactive` through the
status updater, returns the status updater's error as the cycle result, and
succeeds outright when all children are already absent; moreover an error
injected into every one of the four delete calls aborts nothing — all
remaining deletes are still attempted, the status update still runs, and
none of the delete errors is returned. -/
theorem c4_delete_path (u : Revision) (ns0 : String) (t : Nat) (e e1 e2 e3 e4 : KErr)
    (hdel : u.deletionTimestamp = some t)
    (he1 : e1 ≠ KErr.notFound) (he2 : e2 ≠ KErr.notFound)
    (he3 : e3 ≠ KErr.notFound) (he4 : e4 ≠ KErr.notFound) :
    (reconcileWithImage u ns0 (cleanWorld (freshStore u))).1 = none
  ∧ (reconcileWithImage u ns0 (cleanWorld (freshStore u))).2.trace =
      [.getChild .deployment (GetElaNamespaceName u.ns) (GetRevisionDeploymentName u),
       .getChild .autoscaler (GetElaNamespaceName u.ns) (GetRevisionAutoscalerName u),
       .getChild .configmap (GetElaNamespaceName u.ns) (GetRevisionNginxConfigMapName u),
       .deleteChild .service (GetElaNamespaceName u.ns) (GetElaK8SServiceNameForRevision u) true,
       .getRevision u.ns u.name,
       .updateRevision u.ns { u with status := { conditions := [{ type := "Ready", status := "False", reason := "Inactive" }], serviceName := u.status.serviceName } }]
  ∧ (reconcileWithImage u ns0 (cleanWorld (freshStore u))).2.store.revisions =
      [((u.ns, u.name), { u with status := { conditions := [{ type := "Ready", status := "False", reason := "Inactive" }], serviceName := u.status.serviceName } })]
  ∧ (reconcileWithImage u ns0
      (cleanWorld (allChildrenStore u (GetElaNamespaceName u.ns)))).1 = none
  ∧ (reconcileWithImage u ns0
      (cleanWorld (allChildrenStore u (GetElaNamespaceName u.ns)))).2.trace =
      [.getChild .deployment (GetElaNamespaceName u.ns) (GetRevisionDeploymentName u),
       .deleteChild .deployment (GetElaNamespaceName u.ns) (GetRevisionDeploymentName u) true,
       .getChild .autoscaler (GetElaNamespaceName u.ns) (GetRevisionAutoscalerName u),
       .deleteChild .autoscaler (GetElaNamespaceName u.ns) (GetRevisionAutoscalerName u) true,
       .getChild .configmap (GetElaNamespaceName u.ns) (GetRevisionNginxConfigMapName u),
       .deleteChild .configmap (GetElaNamespaceName u.ns) (GetRevisionNginxConfigMapName u) true,
       .deleteChild .service (GetElaNamespaceName u.ns) (GetElaK8SServiceNameForRevision u) true,
       .getRevision u.ns u.name,
       .updateRevision u.ns { u with status := { conditions := [{ type := "Ready", status := "False", reason := "Inactive" }], serviceName := u.status.serviceName } }]
  ∧ (reconcileWithImage u ns0
      (cleanWorld (allChildrenStore u (GetElaNamespaceName u.ns)))).2.store.children = []
  ∧ (reconcileWithImage u ns0 (faultyWorld (freshStore u)
      [none, none, none, none, none, some e])).1 = some e
  ∧ (reconcileWithImage u ns0 (faultyWorld (allChildrenStore u (GetElaNamespaceName u.ns))
      [none, some e1, none, some e2, none, some e3, some e4])).1 = none
  ∧ (reconcileWithImage u ns0 (faultyWorld (allChildrenStore u (GetElaNamespaceName u.ns))
      [none, some e1, none, some e2, none, some e3, some e4])).2.trace =
      [.getChild .deployment (GetElaNamespaceName u.ns) (GetRevisionDeploymentName u),
       .deleteChild .deployment (GetElaNamespaceName u.ns) (GetRevisionDeploymentName u) true,
       .getChild .autoscaler (GetElaNamespaceName u.ns) (GetRevisionAutoscalerName u),
       .deleteChild .autoscaler (GetElaNamespaceName u.ns) (GetRevisionAutoscalerName u) true,
       .getChild .configmap (GetElaNamespaceName u.ns) (GetRevisionNginxConfigMapName u),
       .deleteChild .configmap (GetElaNamespaceName u.ns) (GetRevisionNginxConfigMapName u) true,
       .deleteChild .service (GetElaNamespaceName u.ns) (GetElaK8SServiceNameForRevision u) true,
       .getRevision u.ns u.name,
       .updateRevision u.ns { u with status := { conditions := [{ type := "Ready", status := "False", reason := "Inactive" }], serviceName := u.status.serviceName } }]
  ∧ (reconcileWithImage u ns0 (faultyWorld (allChildrenStore u (GetElaNamespaceName u.ns))
      [none, some e1, none, some e2, none, some e3, some e4])).2.store.revisions =
      [((u.ns, u.name), { u with status := { conditions := [{ type := "Ready", status := "False", reason := "Inactive" }], serviceName := u.status.serviceName } })] := by
  refine ⟨?_, ?_, ?_, ?_, ?_, ?_, ?_, ?_, ?_, ?_⟩ <;>
    simp [reconcileWithImage, hdel, runDeleteAbsent, runDeletePresent, runDeleteAbsentFault,
      runDeletePresentFault u (GetElaNamespaceName u.ns) e1 e2 e3 e4 he1 he2 he3 he4]

/-- Witness for C4 at the concrete terminating Revision `r1del`. -/
theorem c4_delete_path_witness :
    r1del.deletionTimestamp = some 1
  ∧ (KErr.other 1 ≠ KErr.notFound)
  ∧ (reconcileWithImage r1del "x" (cleanWorld (freshStore r1del))).1 = none :=
  ⟨rfl, by decide,
   (c4_delete_path r1del "x" 1 (KErr.other 5) (KErr.other 1) (KErr.other 2) (KErr.other 3)
     (KErr.other 4) rfl (by decide) (by decide) (by decide) (by decide)).1⟩

/-- C9: running the create path twice from a fresh store leaves exactly one
of each child resource existing, and the second run performs no create call
and returns success, leaving the children unchanged. -/
theorem c9_idempotent_create (u : Revision) (ns : String) :
    (createK8SResources u ns (cleanWorld (freshStore u))).1 = none
  ∧ countChild .deployment (createK8SResources u ns (cleanWorld (freshStore u))).2.store = 1
  ∧ countChild .autoscaler (createK8SResources u ns (cleanWorld (freshStore u))).2.store = 1
  ∧ countChild .configmap (createK8SResources u ns (cleanWorld (freshStore u))).2.store = 1
  ∧ countChild .service (createK8SResources u ns (cleanWorld (freshStore u))).2.store = 1
  ∧ (createK8SResources u ns
      (cleanWorld (createK8SResources u ns (cleanWorld (freshStore u))).2.store)).1 = none
  ∧ createCalls (createK8SResources u ns
      (cleanWorld (createK8SResources u ns (cleanWorld (freshStore u))).2.store)).2.trace = []
  ∧ (createK8SResources u ns
      (cleanWorld (createK8SResources u ns (cleanWorld (freshStore u))).2.store)).2.store.children =
      (createK8SResources u ns (cleanWorld (freshStore u))).2.store.children := by
  refine ⟨?_, ?_, ?_, ?_, ?_, ?_, ?_, ?_⟩ <;>
    simp [runCreateFresh, runCreateSecond, createCalls, countChild]


/-- C5 is falsified for the service: `deleteService` never fetches the
child — its one and only API call is the foreground-cascading delete itself,
even when the service is absent. -/
theorem c5_counterexample :
    (deleteService r1 "default-ela" (cleanWorld ⟨[], [], []⟩)).2.trace =
      [.deleteChild .service "default-ela" (GetElaK8SServiceNameForRevision r1) true]
  ∧ (deleteService r1 "default-ela" (cleanWorld ⟨[], [], []⟩)).1 = none := by
  refine ⟨?_, ?_⟩ <;> decide

/-- C5 amended: delete-deployment, delete-autoscaler and delete-configmap
first fetch the child by its derived name and return success when it is not
found; otherwise they issue a foreground-cascading delete, treat a
not-found delete result as success, and return any other delete error.
Delete-service skips the fetch and issues the foreground-cascading delete
directly, with the same treatment of the delete call's outcome. -/
theorem c5_delete_protocol (u : Revision) (ns : String) (e : KErr)
    (he : e ≠ KErr.notFound) :
    deleteDeployment u ns (cleanWorld ⟨[], [], []⟩) =
      (none, ⟨⟨[], [], []⟩, [], [.getChild .deployment ns (GetRevisionDeploymentName u)]⟩)
  ∧ deleteDeployment u ns (cleanWorld ⟨[(.deployment, ns, (GetRevisionDeploymentName u))], [], []⟩) =
      (none, ⟨⟨[], [], []⟩, [],
        [.getChild .deployment ns (GetRevisionDeploymentName u),
         .deleteChild .deployment ns (GetRevisionDeploymentName u) true]⟩)
  ∧ deleteDeployment u ns (faultyWorld ⟨[(.deployment, ns, (GetRevisionDeploymentName u))], [], []⟩
        [none, some e]) =
      (some e, ⟨⟨[(.deployment, ns, (GetRevisionDeploymentName u))], [], []⟩, [],
        [.getChild .deployment ns (GetRevisionDeploymentName u),
         .deleteChild .deployment ns (GetRevisionDeploymentName u) true]⟩)
  ∧ deleteDeployment u ns (faultyWorld ⟨[(.deployment, ns, (GetRevisionDeploymentName u))], [], []⟩
        [none, some KErr.notFound]) =
      (none, ⟨⟨[(.deployment, ns, (GetRevisionDeploymentName u))], [], []⟩, [],
        [.getChild .deployment ns (GetRevisionDeploymentName u),
         .deleteChild .deployment ns (GetRevisionDeploymentName u) true]⟩)
  ∧ deleteAutoscaler u ns (cleanWorld ⟨[], [], []⟩) =
      (none, ⟨⟨[], [], []⟩, [], [.getChild .autoscaler ns (GetRevisionAutoscalerName u)]⟩)
  ∧ deleteAutoscaler u ns (cleanWorld ⟨[(.autoscaler, ns, (GetRevisionAutoscalerName u))], [], []⟩) =
      (none, ⟨⟨[], [], []⟩, [],
        [.getChild .autoscaler ns (GetRevisionAutoscalerName u),
         .deleteChild .autoscaler ns (GetRevisionAutoscalerName u) true]⟩)
  ∧ deleteAutoscaler u ns (faultyWorld ⟨[(.autoscaler, ns, (GetRevisionAutoscalerName u))], [], []⟩
        [none, some e]) =
      (some e, ⟨⟨[(.autoscaler, ns, (GetRevisionAutoscalerName u))], [], []⟩, [],
        [.getChild .autoscaler ns (GetRevisionAutoscalerName u),
         .deleteChild .autoscaler ns (GetRevisionAutoscalerName u) true]⟩)
  ∧ deleteAutoscaler u ns (faultyWorld ⟨[(.autoscaler, ns, (GetRevisionAutoscalerName u))], [], []⟩
        [none, some KErr.notFound]) =
      (none, ⟨⟨[(.autoscaler, ns, (GetRevisionAutoscalerName u))], [], []⟩, [],
        [.getChild .autoscaler ns (GetRevisionAutoscalerName u),
         .deleteChild .autoscaler ns (GetRevisionAutoscalerName u) true]⟩)
  ∧ deleteNginxConfig u ns (cleanWorld ⟨[], [], []⟩) =
      (none, ⟨⟨[], [], []⟩, [], [.getChild .configmap ns (GetRevisionNginxConfigMapName u)]⟩)
  ∧ deleteNginxConfig u ns (cleanWorld ⟨[(.configmap, ns, (GetRevisionNginxConfigMapName u))], [], []⟩) =
      (none, ⟨⟨[], [], []⟩, [],
        [.getChild .configmap ns (GetRevisionNginxConfigMapName u),
         .deleteChild .configmap ns (GetRevisionNginxConfigMapName u) true]⟩)
  ∧ deleteNginxConfig u ns (faultyWorld ⟨[(.configmap, ns, (GetRevisionNginxConfigMapName u))], [], []⟩
        [none, some e]) =
      (some e, ⟨⟨[(.configmap, ns, (GetRevisionNginxConfigMapName u))], [], []⟩, [],
        [.getChild .configmap ns (GetRevisionNginxConfigMapName u),
         .deleteChild .configmap ns (GetRevisionNginxConfigMapName u) true]⟩)
  ∧ deleteNginxConfig u ns (faultyWorld ⟨[(.configmap, ns, (GetRevisionNginxConfigMapName u))], [], []⟩
        [none, some KErr.notFound]) =
      (none, ⟨⟨[(.configmap, ns, (GetRevisionNginxConfigMapName u))], [], []⟩, [],
        [.getChild .configmap ns (GetRevisionNginxConfigMapName u),
         .deleteChild .configmap ns (GetRevisionNginxConfigMapName u) true]⟩)
  ∧ deleteService u ns (cleanWorld ⟨[], [], []⟩) =
      (none, ⟨⟨[], [], []⟩, [], [.deleteChild .service ns (GetElaK8SServiceNameForRevision u) true]⟩)
  ∧ deleteService u ns (cleanWorld ⟨[(.service, ns, (GetElaK8SServiceNameForRevision u))], [], []⟩) =
      (none, ⟨⟨[], [], []⟩, [], [.deleteChild .service ns (GetElaK8SServiceNameForRevision u) true]⟩)
  ∧ deleteService u ns (faultyWorld ⟨[(.service, ns, (GetElaK8SServiceNameForRevision u))], [], []⟩ [some e]) =
      (some e, ⟨⟨[(.service, ns, (GetElaK8SServiceNameForRevision u))], [], []⟩, [],
        [.deleteChild .service ns (GetElaK8SServiceNameForRevision u) true]⟩) := by
  refine ⟨?_, ?_, ?_, ?_, ?_, ?_, ?_, ?_, ?_, ?_, ?_, ?_, ?_, ?_, ?_⟩ <;>
    cases e <;>
      simp_all [deleteDeployment, deleteAutoscaler, deleteNginxConfig, deleteService,
        World.call, Store.apply, removeChild, cleanWorld, faultyWorld]

/-- Witness for C5 amended at concrete inputs. -/
theorem c5_delete_protocol_witness :
    (KErr.other 6 ≠ KErr.notFound)
  ∧ deleteDeployment r1 "n" (cleanWorld ⟨[], [], []⟩) =
      (none, ⟨⟨[], [], []⟩, [], [.getChild .deployment "n" (GetRevisionDeploymentName r1)]⟩) :=
  ⟨by decide, (c5_delete_protocol r1 "n" (KErr.other 6) (by decide)).1⟩

/-- C6: each reconcile fetches the child by its derived name; when found it
performs no write and succeeds; when not found it creates the child with an
owner reference (the deployment reconcile also creating its Pod) and
returns the create call's outcome verbatim; and any non-not-found fetch
error is returned without attempting the create. -/
theorem c6_reconcile_protocol (u : Revision) (ns : String) (e ec : KErr)
    (he : e ≠ KErr.notFound) :
    reconcileDeployment u ns (cleanWorld ⟨[(.deployment, ns, (GetRevisionDeploymentName u))], [], []⟩) =
      (none, ⟨⟨[(.deployment, ns, (GetRevisionDeploymentName u))], [], []⟩, [], [.getChild .deployment ns (GetRevisionDeploymentName u)]⟩)
  ∧ reconcileDeployment u ns (cleanWorld ⟨[], [], []⟩) =
      (none, ⟨⟨[(.pod, ns, (GetRevisionPodName u)), (.deployment, ns, (GetRevisionDeploymentName u))], [], []⟩, [],
        [.getChild .deployment ns (GetRevisionDeploymentName u),
         .createChild .pod ns (GetRevisionPodName u) true,
         .createChild .deployment ns (GetRevisionDeploymentName u) true]⟩)
  ∧ reconcileDeployment u ns (faultyWorld ⟨[], [], []⟩ [none, none, some ec]) =
      (some ec, ⟨⟨[(.pod, ns, (GetRevisionPodName u))], [], []⟩, [],
        [.getChild .deployment ns (GetRevisionDeploymentName u),
         .createChild .pod ns (GetRevisionPodName u) true,
         .createChild .deployment ns (GetRevisionDeploymentName u) true]⟩)
  ∧ reconcileDeployment u ns (faultyWorld ⟨[], [], []⟩ [some e]) =
      (some e, ⟨⟨[], [], []⟩, [], [.getChild .deployment ns (GetRevisionDeploymentName u)]⟩)
  ∧ reconcileAutoscaler u ns (cleanWorld ⟨[(.autoscaler, ns, (GetRevisionAutoscalerName u))], [], []⟩) =
      (none, ⟨⟨[(.autoscaler, ns, (GetRevisionAutoscalerName u))], [], []⟩, [], [.getChild .autoscaler ns (GetRevisionAutoscalerName u)]⟩)
  ∧ reconcileAutoscaler u ns (cleanWorld ⟨[], [], []⟩) =
      (none, ⟨⟨[(.autoscaler, ns, (GetRevisionAutoscalerName u))], [], []⟩, [],
        [.getChild .autoscaler ns (GetRevisionAutoscalerName u),
         .createChild .autoscaler ns (GetRevisionAutoscalerName u) true]⟩)
  ∧ reconcileAutoscaler u ns (faultyWorld ⟨[], [], []⟩ [none, some ec]) =
      (some ec, ⟨⟨[], [], []⟩, [],
        [.getChild .autoscaler ns (GetRevisionAutoscalerName u),
         .createChild .autoscaler ns (GetRevisionAutoscalerName u) true]⟩)
  ∧ reconcileAutoscaler u ns (faultyWorld ⟨[], [], []⟩ [some e]) =
      (some e, ⟨⟨[], [], []⟩, [], [.getChild .autoscaler ns (GetRevisionAutoscalerName u)]⟩)
  ∧ reconcileNginxConfig u ns (cleanWorld ⟨[(.configmap, ns, (GetRevisionNginxConfigMapName u))], [], []⟩) =
      (none, ⟨⟨[(.configmap, ns, (GetRevisionNginxConfigMapName u))], [], []⟩, [], [.getChild .configmap ns (GetRevisionNginxConfigMapName u)]⟩)
  ∧ reconcileNginxConfig u ns (cleanWorld ⟨[], [], []⟩) =
      (none, ⟨⟨[(.configmap, ns, (GetRevisionNginxConfigMapName u))], [], []⟩, [],
        [.getChild .configmap ns (GetRevisionNginxConfigMapName u),
         .createChild .configmap ns (GetRevisionNginxConfigMapName u) true]⟩)
  ∧ reconcileNginxConfig u ns (faultyWorld ⟨[], [], []⟩ [none, some ec]) =
      (some ec, ⟨⟨[], [], []⟩, [],
        [.getChild .configmap ns (GetRevisionNginxConfigMapName u),
         .createChild .configmap ns (GetRevisionNginxConfigMapName u) true]⟩)
  ∧ reconcileNginxConfig u ns (faultyWorld ⟨[], [], []⟩ [some e]) =
      (some e, ⟨⟨[], [], []⟩, [], [.getChild .configmap ns (GetRevisionNginxConfigMapName u)]⟩)
  ∧ reconcileService u ns (cleanWorld ⟨[(.service, ns, (GetElaK8SServiceNameForRevision u))], [], []⟩) =
      ((GetElaK8SServiceNameForRevision u, none),
       ⟨⟨[(.service, ns, (GetElaK8SServiceNameForRevision u))], [], []⟩, [], [.getChild .service ns (GetElaK8SServiceNameForRevision u)]⟩)
  ∧ reconcileService u ns (cleanWorld ⟨[], [], []⟩) =
      ((GetElaK8SServiceNameForRevision u, none),
       ⟨⟨[(.service, ns, (GetElaK8SServiceNameForRevision u))], [], []⟩, [],
        [.getChild .service ns (GetElaK8SServiceNameForRevision u),
         .createChild .service ns (GetElaK8SServiceNameForRevision u) true]⟩)
  ∧ reconcileService u ns (faultyWorld ⟨[], [], []⟩ [none, some ec]) =
      ((GetElaK8SServiceNameForRevision u, some ec),
       ⟨⟨[], [], []⟩, [],
        [.getChild .service ns (GetElaK8SServiceNameForRevision u),
         .createChild .service ns (GetElaK8SServiceNameForRevision u) true]⟩)
  ∧ reconcileService u ns (faultyWorld ⟨[], [], []⟩ [some e]) =
      (("", some e), ⟨⟨[], [], []⟩, [], [.getChild .service ns (GetElaK8SServiceNameForRevision u)]⟩) := by
  refine ⟨?_, ?_, ?_, ?_, ?_, ?_, ?_, ?_, ?_, ?_, ?_, ?_, ?_, ?_, ?_, ?_⟩ <;>
    cases e <;>
      simp_all [reconcileDeployment, reconcileAutoscaler, reconcileNginxConfig,
        reconcileService, World.call, Store.apply, cleanWorld, faultyWorld]

/-- Witness for C6 at concrete inputs. -/
theorem c6_reconcile_protocol_witness :
    (KErr.other 8 ≠ KErr.notFound)
  ∧ reconcileDeployment r1 "n" (cleanWorld ⟨[(.deployment, "n", GetRevisionDeploymentName r1)], [], []⟩) =
      (none, ⟨⟨[(.deployment, "n", GetRevisionDeploymentName r1)], [], []⟩, [],
        [.getChild .deployment "n" (GetRevisionDeploymentName r1)]⟩) :=
  ⟨by decide, (c6_reconcile_protocol r1 "n" (KErr.other 8) (KErr.other 9) (by decide)).1⟩

/-- C7: `updateStatus` re-fetches the stored Revision by the working copy's
identity and writes back the freshly fetched object with only its status
replaced — spec and deletion marker of the stored object survive — and when
the re-fetch fails the store error is returned and no write is attempted. -/
theorem c7_status_merge (ns n : String) (sp1 sp2 : Nat) (d1 d2 : Option Nat)
    (st1 st2 : RevisionStatus) (e : KErr) :
    updateStatus ⟨ns, n, sp1, d1, st1⟩
      (cleanWorld ⟨[], [((ns, n), ⟨ns, n, sp2, d2, st2⟩)], []⟩) =
      ((some ⟨ns, n, sp2, d2, st1⟩, none),
       ⟨⟨[], [((ns, n), ⟨ns, n, sp2, d2, st1⟩)], []⟩, [],
        [.getRevision ns n, .updateRevision ns ⟨ns, n, sp2, d2, st1⟩]⟩)
  ∧ updateStatus ⟨ns, n, sp1, d1, st1⟩
      (faultyWorld ⟨[], [((ns, n), ⟨ns, n, sp2, d2, st2⟩)], []⟩ [some e]) =
      ((none, some e),
       ⟨⟨[], [((ns, n), ⟨ns, n, sp2, d2, st2⟩)], []⟩, [], [.getRevision ns n]⟩) := by
  refine ⟨?_, ?_⟩ <;>
    simp [updateStatus, World.call, Store.apply, lookupRev, setRev, cleanWorld, faultyWorld]

/-- C8: the sync handler drops malformed keys with a nil return, drops keys
whose Revision is no longer in the informer cache with a nil return, and
returns any other cache fetch error as a retryable failure. -/
theorem c8_sync_handler_errors (key1 key2 n1 n2 : String) (w : World)
    (ch : List (Kind × String × String)) (rv : List ((String × String) × Revision))
    (s : Store) (e : KErr)
    (hm : SplitMetaNamespaceKey key1 = none)
    (hs : SplitMetaNamespaceKey key2 = some (n1, n2))
    (he : e ≠ KErr.notFound) :
    syncHandler key1 w = (.ok, w)
  ∧ syncHandler key2 (cleanWorld ⟨ch, rv, []⟩) =
      (.ok, ⟨⟨ch, rv, []⟩, [], [.getCachedRevision n1 n2]⟩)
  ∧ syncHandler key2 (faultyWorld s [some e]) =
      (.fail e, ⟨s, [], [.getCachedRevision n1 n2]⟩)
  ∧ SplitMetaNamespaceKey "a/b/c" = none
  ∧ SplitMetaNamespaceKey "default/r1" = some ("default", "r1") := by
  refine ⟨?_, ?_, ?_, ?_, ?_⟩
  · simp [syncHandler, hm]
  · simp [syncHandler, hs, World.call, Store.apply, lookupRev, cleanWorld]
  · cases e <;> simp_all [syncHandler, World.call, faultyWorld]
  · decide
  · decide

/-- Witness for C8 at concrete keys. -/
theorem c8_sync_handler_errors_witness :
    SplitMetaNamespaceKey "a/b/c" = none
  ∧ syncHandler "a/b/c" (cleanWorld (freshStore r1)) = (.ok, cleanWorld (freshStore r1)) :=
  ⟨by decide, (c8_sync_handler_errors "a/b/c" "default/r1" "default" "r1"
    (cleanWorld (freshStore r1)) [] [] (freshStore r1) (KErr.other 2)
    (by decide) (by decide) (by decide)).1⟩

/-- C10: when the Revision is fetched from the cache but get-or-create of
the namespace fails, the sync handler panics (aborting the process) instead
of returning the error as a retryable failure, and no reconcile call is
made after the namespace call. -/
theorem c10_namespace_abort (key n1 n2 : String) (u : Revision) (e : KErr)
    (hs : SplitMetaNamespaceKey key = some (n1, n2)) :
    syncHandler key (faultyWorld ⟨[], [], [((n1, n2), u)]⟩ [none, some e]) =
      (.panicked, ⟨⟨[], [], [((n1, n2), u)]⟩, [],
        [.getCachedRevision n1 n2, .getOrCreateNamespace n1]⟩)
  ∧ (syncHandler key (faultyWorld ⟨[], [], [((n1, n2), u)]⟩ [none, some e])).1 ≠
      SyncOutcome.fail e := by
  have main : syncHandler key (faultyWorld ⟨[], [], [((n1, n2), u)]⟩ [none, some e]) =
      (.panicked, ⟨⟨[], [], [((n1, n2), u)]⟩, [],
        [.getCachedRevision n1 n2, .getOrCreateNamespace n1]⟩) := by
    simp [syncHandler, hs, World.call, Store.apply, lookupRev, faultyWorld]
  exact ⟨main, by simp [main]⟩

/-- Witness for C10 at a concrete key and Revision. -/
theorem c10_namespace_abort_witness :
    SplitMetaNamespaceKey "default/r1" = some ("default", "r1")
  ∧ syncHandler "default/r1"
      (faultyWorld ⟨[], [], [(("default", "r1"), r1)]⟩ [none, some (KErr.other 9)]) =
      (.panicked, ⟨⟨[], [], [(("default", "r1"), r1)]⟩, [],
        [.getCachedRevision "default" "r1", .getOrCreateNamespace "default"]⟩) :=
  ⟨by decide, (c10_namespace_abort "default/r1" "default" "r1" r1 (KErr.other 9)
    (by decide)).1⟩

end Elafros
